import Mathlib

/-!
Shallow embedding of the IRL Hunts game server (`server/app.py`): the in-memory
game-state coordinator (players, beacons, game phase, capture/escape/infection
state machine, safe-zone resolver, emergency subsystem, notification queues),
together with theorems checking the natural-language specification against it.

Python dicts are modelled as association lists preserving insertion order
(Python 3.7+ dict iteration order), ints as `Int`/`Nat`, timestamps as `Nat`
parameters passed explicitly, and side channels (socket emissions) as a list of
emitted event tags.  External collaborators (file storage, HTTP serialization,
authentication) are outside the model, per the spec's scope.
-/

namespace IRLHunts

/-- Look a key up in an insertion-ordered association list (Python `d.get(k)`). -/
def dictLookup {α : Type} (m : List (String × α)) (k : String) : Option α :=
  match m with
  | [] => none
  | (k', v) :: rest => if k' = k then some v else dictLookup rest k

/-- Python `k in d`. -/
def dictContains {α : Type} (m : List (String × α)) (k : String) : Bool :=
  (dictLookup m k).isSome

/-- Python `d[k] = v`: replace in place if present (keeping position),
    else append at the end (insertion order). -/
def dictInsert {α : Type} (m : List (String × α)) (k : String) (v : α) :
    List (String × α) :=
  match m with
  | [] => [(k, v)]
  | (k', v') :: rest =>
    if k' = k then (k', v) :: rest else (k', v') :: dictInsert rest k v

/-- Python `del d[k]` (no error if absent, as used behind containment checks). -/
def dictErase {α : Type} (m : List (String × α)) (k : String) :
    List (String × α) :=
  match m with
  | [] => []
  | (k', v') :: rest =>
    if k' = k then rest else (k', v') :: dictErase rest k

/-- A queued player notification (`{"message", "type", "time_str"}`;
    the display timestamp is presentation data and is not modelled). -/
structure Notif where
  message : String
  msg_type : String
deriving Repr, DecidableEq

/-- An audit-log entry (`log_event`); the heterogeneous display payload is
    presentation data and is not modelled. -/
structure Event where
  id : Nat
  etype : String
deriving Repr, DecidableEq

/-- A player record, translated field-for-field from `get_player`'s dict
    (fields that only feed display output, such as `last_seen`, are kept where
    a claim can observe them and dropped where they are write-only display). -/
structure Player where
  device_id : String
  nickname : String
  name : String
  profile_pic : Option String
  role : String
  original_role : String
  status : String
  online : Bool
  in_safe_zone : Bool
  safe_zone_beacon : Option String
  team : Option String
  captures : Nat
  escapes : Nat
  times_captured : Nat
  sightings : Nat
  points : Int
  last_ping : Nat
  last_rssi : List (String × Int)
  last_location_hint : String
  nearby_players : List (String × String × Int)
  notifications : List Notif
  captured_by : Option String
  captured_by_device : Option String
  captured_prey : List String
  has_photo_of : List String
  infections : Nat
  consent_physical_tag : Bool
  consent_photo_visible : Bool
  consent_location_share : Bool
  ready : Bool
  phone_number : String
deriving Repr, DecidableEq

/-- A safe-zone beacon (`{"name", "rssi", "active"}`). -/
structure Beacon where
  name : String
  rssi : Int
  active : Bool
deriving Repr, DecidableEq

/-- A bounty on a target (`{"points", "reason"}`). -/
structure Bounty where
  points : Int
  reason : String
deriving Repr, DecidableEq

/-- One named game-mode configuration record from `GAME_MODES`. -/
structure ModeConfig where
  name : String
  duration : Nat
  capture_points : Int
  escape_points : Int
  sighting_points : Int
  survival_bonus : Int
  capture_bonus_3 : Int
  capture_bonus_5 : Int
  infection : Bool
  photo_required : Bool
  team_mode : Bool
  teams : List String
deriving Repr, DecidableEq

/-- The whole mutable server state: the `game` dict, the global registries and
    maps, the bounded event log, and the tags of socket events emitted so far
    (modelling `socketio.emit` calls in order). -/
structure GameState where
  phase : String
  mode : String
  start_time : Option Nat
  end_time : Option Nat
  duration : Nat
  countdown : Nat
  emergency : Bool
  emergency_by : Option String
  emergency_reason : String
  emergency_time : Option Nat
  honor_system : Bool
  capture_rssi : Int
  safezone_rssi : Int
  allow_role_change : Bool
  paused_remaining : Option Nat
  players : List (String × Player)
  beacons : List (String × Beacon)
  events : List Event
  event_counter : Nat
  bounties : List (String × Bounty)
  capture_cooldowns : List (String × Nat)
  sighting_cooldowns : List (String × Nat)
  team_scores : List (String × Int)
  moderators : List String
  player_achievements : List (String × List String)
  emits : List String
deriving Repr, DecidableEq

/-- Config fallbacks from `app.py` (hardcoded defaults). -/
def CAPTURE_COOLDOWN : Nat := 10

def SIGHTING_COOLDOWN : Nat := 30

def MAX_PLAYERS : Nat := 100

def MAX_EVENTS : Nat := 1000

def DEFAULT_CAPTURE_RSSI : Int := -70

def DEFAULT_SAFEZONE_RSSI : Int := -75

/-- The `GAME_MODES` table. -/
def GAME_MODES : List (String × ModeConfig) :=
  [ ("classic",
     { name := "Classic Hunt", duration := 30, capture_points := 100,
       escape_points := 75, sighting_points := 25, survival_bonus := 200,
       capture_bonus_3 := 50, capture_bonus_5 := 100, infection := false,
       photo_required := false, team_mode := false, teams := [] }),
    ("quick",
     { name := "Quick Match", duration := 15, capture_points := 100,
       escape_points := 75, sighting_points := 25, survival_bonus := 150,
       capture_bonus_3 := 50, capture_bonus_5 := 100, infection := false,
       photo_required := false, team_mode := false, teams := [] }),
    ("endurance",
     { name := "Endurance", duration := 60, capture_points := 100,
       escape_points := 75, sighting_points := 25, survival_bonus := 500,
       capture_bonus_3 := 50, capture_bonus_5 := 100, infection := false,
       photo_required := false, team_mode := false, teams := [] }),
    ("team",
     { name := "Team Competition", duration := 30, capture_points := 100,
       escape_points := 75, sighting_points := 25, survival_bonus := 200,
       capture_bonus_3 := 50, capture_bonus_5 := 100, infection := false,
       photo_required := false, team_mode := true,
       teams := ["Alpha", "Beta", "Gamma", "Delta"] }),
    ("infection",
     { name := "Infection Mode", duration := 30, capture_points := 50,
       escape_points := 0, sighting_points := 25, survival_bonus := 1000,
       capture_bonus_3 := 25, capture_bonus_5 := 50, infection := true,
       photo_required := false, team_mode := false, teams := [] }),
    ("photo_safari",
     { name := "Photo Safari", duration := 30, capture_points := 100,
       escape_points := 75, sighting_points := 50, survival_bonus := 200,
       capture_bonus_3 := 50, capture_bonus_5 := 100, infection := false,
       photo_required := true, team_mode := false, teams := [] }) ]

/-- `GAME_MODES.get(game["mode"], GAME_MODES["classic"])`. -/
def get_mode_config (s : GameState) : ModeConfig :=
  match dictLookup GAME_MODES s.mode with
  | some mc => mc
  | none =>
    { name := "Classic Hunt", duration := 30, capture_points := 100,
      escape_points := 75, sighting_points := 25, survival_bonus := 200,
      capture_bonus_3 := 50, capture_bonus_5 := 100, infection := false,
      photo_required := false, team_mode := false, teams := [] }

/-- `log_event(event_type, data, broadcast)`: bump the counter, append to the
    bounded event log (evicting the oldest past `MAX_EVENTS`), and broadcast an
    `"event"` socket emission when requested. -/
def log_event (s : GameState) (etype : String) (broadcast : Bool) : GameState :=
  let ec := s.event_counter + 1
  let evs := s.events ++ [{ id := ec, etype := etype }]
  let evs := if evs.length > MAX_EVENTS then evs.tail else evs
  { s with event_counter := ec, events := evs,
           emits := if broadcast then s.emits ++ ["event"] else s.emits }

/-- Append a notification to one queue, dropping the oldest past 20 entries. -/
def pushNotif (q : List Notif) (n : Notif) : List Notif :=
  let q' := q ++ [n]
  if q'.length > 20 then q'.tail else q'

/-- Append one notification to a player's queue (the shared body of
    `notify_player` and `notify_all_players`). -/
def mapNotif (n : Notif) (p : Player) : Player :=
  { p with notifications := pushNotif p.notifications n }

/-- `notify_player(device_id, message, msg_type)`. -/
def notify_player (s : GameState) (device_id message msg_type : String) :
    GameState :=
  match dictLookup s.players device_id with
  | none => s
  | some p =>
    { s with
      players := dictInsert s.players device_id (mapNotif (Notif.mk message msg_type) p),
      emits := s.emits ++ ["notification"] }

/-- `notify_all_players(message, msg_type)`. -/
def notify_all_players (s : GameState) (message msg_type : String) : GameState :=
  { s with
    players := s.players.map (fun kp : String × Player => (kp.1, mapNotif (Notif.mk message msg_type) kp.2)),
    emits := s.emits ++ ["notification"] }

/-- Python `max(d, key=d.get)`: first key carrying the maximal value. -/
def argmaxKey (m : List (String × Int)) : Option String :=
  match m with
  | [] => none
  | kv :: rest =>
    some ((rest.foldl (fun acc x => if x.2 > acc.2 then x else acc) kv).1)

/-- Python `min(d, key=d.get)`: first key carrying the minimal value. -/
def argminKey (m : List (String × Nat)) : Option String :=
  match m with
  | [] => none
  | kv :: rest =>
    some ((rest.foldl (fun acc x => if x.2 < acc.2 then x else acc) kv).1)

/-- Number of players whose role is `"prey"`. -/
def countPrey (s : GameState) : Nat :=
  (s.players.filter (fun kp => kp.2.role = "prey")).length

/-- `calculate_points(player)`: the pure stats-to-points computation
    (the Python also caches the result into `player["points"]`; callers of the
    model write the returned value back where the code does). -/
def calculate_points (s : GameState) (p : Player) : Int :=
  let mc := get_mode_config s
  let pts : Int :=
    if p.role = "pred" then
      (p.captures : Int) * mc.capture_points
        + (if p.captures ≥ 3 then mc.capture_bonus_3 else 0)
        + (if p.captures ≥ 5 then mc.capture_bonus_5 else 0)
        + (p.sightings : Int) * mc.sighting_points
        + (if mc.infection then (p.infections : Int) * 25 else 0)
    else if p.role = "prey" then
      (p.escapes : Int) * mc.escape_points
        + (p.sightings : Int) * mc.sighting_points
        + (if p.times_captured = 0 ∧ s.phase = "ended" then mc.survival_bonus else 0)
        + (if mc.infection ∧ s.phase = "ended" ∧ countPrey s = 1 then mc.survival_bonus else 0)
    else 0
  if mc.team_mode ∧ s.phase = "ended" ∧ p.team.isSome ∧ p.team ≠ some "" then
    match argmaxKey s.team_scores with
    | some winning =>
      if p.team = some winning ∧ (dictLookup s.team_scores winning).getD 0 > 0 then
        pts + 300
      else pts
    | none => pts
  else pts

/-- The `ACHIEVEMENTS` display table (key, name, icon). -/
def ACHIEVEMENTS : List (String × String × String) :=
  [ ("first_blood", "First Blood", "🩸"),
    ("survivor", "Survivor", "🛡️"),
    ("escape_artist", "Escape Artist", "🏃"),
    ("hunter_elite", "Elite Hunter", "🎯"),
    ("paparazzi", "Paparazzi", "📸"),
    ("team_player", "Team Player", "🤝"),
    ("last_standing", "Last Standing", "👑"),
    ("marathon", "Marathon", "🏅") ]

/-- `award_achievement(device_id, achievement_key)`. -/
def award_achievement (s : GameState) (device_id key : String) : GameState :=
  let cur := (dictLookup s.player_achievements device_id).getD []
  if key ∈ cur then s
  else
    let s := { s with player_achievements := dictInsert s.player_achievements device_id (cur ++ [key]) }
    let disp := ((ACHIEVEMENTS.find? (fun a => a.1 = key)).map (·.2)).getD (key, "🏆")
    let aname := disp.1
    let icon := disp.2
    let s :=
      if dictContains s.players device_id then
        notify_player s device_id s!"{icon} Achievement Unlocked: {aname}!" "success"
      else s
    log_event s "achievement" true

/-- `check_achievements(device_id)`. -/
def check_achievements (s : GameState) (device_id : String) : GameState :=
  match dictLookup s.players device_id with
  | none => s
  | some player =>
    let s := if player.escapes ≥ 3 then award_achievement s device_id "escape_artist" else s
    let s := if player.captures ≥ 5 then award_achievement s device_id "hunter_elite" else s
    if player.sightings ≥ 10 then award_achievement s device_id "paparazzi" else s

/-- `assign_team(player)`: put a predator on the currently-smallest team
    (team mode only). -/
def assign_team (s : GameState) (device_id : String) : GameState :=
  let mc := get_mode_config s
  match dictLookup s.players device_id with
  | none => s
  | some player =>
    if ¬mc.team_mode ∨ player.role ≠ "pred" then s
    else
      let team_sizes := mc.teams.map (fun tm =>
        (tm, (s.players.filter (fun kp => kp.2.role = "pred" ∧ kp.2.team = some tm)).length))
      match argminKey team_sizes with
      | none => s
      | some smallest =>
        let s := { s with players := dictInsert s.players device_id { player with team := some smallest } }
        notify_player s device_id s!"You\x27ve been assigned to Team {smallest}!" "info"

/-- `process_escape(prey_id, beacon_id)`: no-op in infection mode or when the
    target is not currently captured; otherwise flips the prey back to active,
    increments its escapes, clears the captured-by linkage and notifies both
    sides. -/
def process_escape (s : GameState) (prey_id : String) (beacon_id : Option String) :
    GameState × Bool :=
  let mc := get_mode_config s
  if mc.infection then (s, false)
  else
    match dictLookup s.players prey_id with
    | none => (s, false)
    | some prey_p =>
      if prey_p.status ≠ "captured" then (s, false)
      else
        let escaped_from_device := prey_p.captured_by_device
        let p2 := { prey_p with status := "active", escapes := prey_p.escapes + 1, captured_by := none, captured_by_device := none }
        let s := { s with players := dictInsert s.players prey_id p2 }
        let beacon_name :=
          match beacon_id with
          | some bid =>
            match dictLookup s.beacons bid with
            | some b => b.name
            | none => bid
          | none => "safe zone"
        let s := log_event s "escape" true
        let s := notify_player s prey_id s!"You ESCAPED via {beacon_name}!" "success"
        let preyName := prey_p.name
        let s :=
          match escaped_from_device with
          | some d =>
            if d ≠ "" ∧ dictContains s.players d then
              notify_player s d s!"⚠️ {preyName} ESCAPED! Hunt them again!" "warning"
            else s
          | none => s
        let s := check_achievements s prey_id
        ({ s with emits := s.emits ++ ["escape"] }, true)

/-- The all-prey-infected forced game-end block inside `process_capture`
    (infection mode): if no prey remain, force phase `ended` and broadcast the
    final results. -/
def infection_end_step (s : GameState) (t : Nat) : GameState :=
  let prey_left := countPrey s
  if prey_left = 0 then
    let s := { s with phase := "ended", end_time := some t }
    let s := log_event s "game_auto_end" true
    let s := notify_all_players s "🦠 ALL PREY INFECTED!" "success"
    { s with emits := s.emits ++ ["game_ended"] }
  else s

/-- The bounty-collection block inside `process_capture` (standard mode):
    pay the bounty into the predator's points field and delete the bounty. -/
def bounty_step (s : GameState) (pred_id prey_id predName preyName : String) :
    GameState :=
  match dictLookup s.bounties prey_id with
  | some b =>
    let s :=
      match dictLookup s.players pred_id with
      | some pr =>
        { s with players := dictInsert s.players pred_id { pr with points := pr.points + b.points } }
      | none => s
    let s := log_event s "bounty_collected" true
    let bp := b.points
    let s := notify_player s pred_id s!"💰 BOUNTY COLLECTED! +{bp} bonus points!" "success"
    let s := notify_all_players s s!"💰 {predName} collected the bounty on {preyName}!" "info"
    { s with bounties := dictErase s.bounties prey_id }
  | none => s

/-- The first-blood achievement block inside `process_capture`. -/
def first_blood_step (s : GameState) (pred_id predName : String) : GameState :=
  let total_captures : Nat := (s.players.map (fun kp => kp.2.captures)).sum
  if total_captures = 1 then
    let s := award_achievement s pred_id "first_blood"
    notify_all_players s s!"🩸 {predName} drew FIRST BLOOD!" "warning"
  else s

/-- The success path of `process_capture` (everything after the cooldown
    timestamp write), split out for readability; `pred`/`prey_p` are the
    already-looked-up player records. -/
def capture_commit (s : GameState) (mc : ModeConfig) (pred_id prey_id : String)
    (pred prey_p : Player) (rssi : Int) (t : Nat) : GameState × Bool × String :=
  let _ := rssi
  let s := { s with capture_cooldowns := dictInsert s.capture_cooldowns pred_id t }
  let predName := pred.name
  let preyName := prey_p.name
  if mc.infection then
    let prey2 := { prey_p with role := "pred", status := "active", times_captured := prey_p.times_captured + 1 }
    let pred2 := { pred with captures := pred.captures + 1, infections := pred.infections + 1 }
    let s := { s with players := dictInsert (dictInsert s.players prey_id prey2) pred_id pred2 }
    let s := log_event s "infection" true
    let s := notify_player s prey_id s!"INFECTED by {predName}! You are now a PREDATOR!" "danger"
    let s := notify_player s pred_id s!"You infected {preyName}! They\x27re now hunting!" "success"
    let s := notify_all_players s s!"🦠 {preyName} has been INFECTED!" "warning"
    let s := { s with emits := s.emits ++ ["infection"] }
    let s := infection_end_step s t
    (s, true, s!"Infected {preyName}! They\x27re now a predator!")
  else
    let prey2 := { prey_p with status := "captured", times_captured := prey_p.times_captured + 1, captured_by := some pred.name, captured_by_device := some pred_id }
    let pred2 := { pred with captures := pred.captures + 1, captured_prey := if prey_id ∈ pred.captured_prey then pred.captured_prey else pred.captured_prey ++ [prey_id] }
    let s := { s with players := dictInsert (dictInsert s.players prey_id prey2) pred_id pred2 }
    let s :=
      match pred.team with
      | some tm =>
        if mc.team_mode ∧ tm ≠ "" then
          { s with team_scores := dictInsert s.team_scores tm ((dictLookup s.team_scores tm).getD 0 + 1) }
        else s
      | none => s
    let s := log_event s "capture" true
    let s := notify_player s prey_id s!"CAPTURED by {predName}!" "danger"
    let s := notify_player s pred_id s!"You captured {preyName}!" "success"
    let s := { s with emits := s.emits ++ ["capture"] }
    let s := bounty_step s pred_id prey_id predName preyName
    let s := first_blood_step s pred_id predName
    let s := check_achievements s pred_id
    (s, true, s!"Captured {preyName}!")

/-- `process_capture(pred_id, prey_id, rssi)` with the wall-clock time `t`
    passed explicitly; returns the new state plus the `(bool, reason)` pair. -/
def process_capture (s : GameState) (pred_id prey_id : String) (rssi : Int)
    (t : Nat) : GameState × Bool × String :=
  let mc := get_mode_config s
  match dictLookup s.players pred_id, dictLookup s.players prey_id with
  | none, _ => (s, false, "Invalid players")
  | some _, none => (s, false, "Invalid players")
  | some pred, some prey_p =>
    if pred_id = prey_id then (s, false, "Cannot capture yourself")
    else if pred.role ≠ "pred" then (s, false, "Not a predator")
    else if prey_p.role ≠ "prey" then (s, false, "Target is not prey")
    else if prey_p.status = "captured" ∧ ¬mc.infection then (s, false, "Already captured")
    else if prey_p.in_safe_zone ∧ ¬mc.infection then (s, false, "Prey is in safe zone")
    else if s.phase ≠ "running" then (s, false, "Game not running")
    else if s.emergency then (s, false, "Game paused for emergency")
    else if rssi < s.capture_rssi then
      let thr := s.capture_rssi
      (s, false, s!"Too far (RSSI: {rssi}, need > {thr})")
    else if mc.photo_required ∧ prey_id ∉ pred.has_photo_of then
      (s, false, "Must photograph prey first! Take a sighting photo before capture.")
    else
      match dictLookup s.capture_cooldowns pred_id with
      | some last =>
        if t - last < CAPTURE_COOLDOWN then
          let lft := CAPTURE_COOLDOWN - (t - last)
          (s, false, s!"Wait {lft}s")
        else capture_commit s mc pred_id prey_id pred prey_p rssi t
      | none => capture_commit s mc pred_id prey_id pred prey_p rssi t

/-- One step of the beacon-reading scan loop in `update_safe_zone`, threading
    the state because the loop logs unknown "SZ" beacons as it scans.
    Accumulator: (state, is_safe, nearest_beacon, best_rssi). -/
def scanStep (acc : GameState × Bool × Option String × Int) (br : String × Int) :
    GameState × Bool × Option String × Int :=
  let (s, is_safe, nearest, best) := acc
  match dictLookup s.beacons br.1 with
  | some b =>
    if b.active ∧ br.2 ≥ b.rssi ∧ br.2 > best then (s, true, some br.1, br.2)
    else (s, is_safe, nearest, best)
  | none =>
    if br.1.startsWith "SZ" then (log_event s "unknown_beacon" false, is_safe, nearest, best)
    else (s, is_safe, nearest, best)

/-- The whole beacon scan loop of `update_safe_zone`: fold the readings from
    the initial accumulator `(state, False, None, -999)`. -/
def scanResult (s : GameState) (beacon_rssi : List (String × Int)) :
    GameState × Bool × Option String × Int :=
  beacon_rssi.foldl scanStep (s, false, none, (-999 : Int))

/-- `update_safe_zone(device_id, beacon_rssi)`: scan the reported readings for
    the strongest qualifying active beacon, then apply the enter/leave
    transition (auto-escape on entering while captured). -/
def update_safe_zone (s : GameState) (device_id : String)
    (beacon_rssi : List (String × Int)) : GameState :=
  match dictLookup s.players device_id with
  | none => s
  | some player =>
    let was_safe := player.in_safe_zone
    let scan := scanResult s beacon_rssi
    let s := scan.1
    let is_safe := scan.2.1
    let nearest := scan.2.2.1
    if is_safe ∧ ¬was_safe then
      match nearest with
      | some nb =>
        let beacon_name := match dictLookup s.beacons nb with
          | some b => b.name
          | none => nb
        let p2 := { player with in_safe_zone := true, safe_zone_beacon := some nb, last_location_hint := "Near " ++ beacon_name }
        let s := { s with players := dictInsert s.players device_id p2 }
        let s := log_event s "enter_safezone" true
        let s := notify_player s device_id ("Entered safe zone: " ++ beacon_name) "success"
        if player.status = "captured" then (process_escape s device_id (some nb)).1 else s
      | none => s
    else if ¬is_safe ∧ was_safe then
      let p2 := { player with in_safe_zone := false, safe_zone_beacon := none }
      let s := { s with players := dictInsert s.players device_id p2 }
      let s := log_event s "leave_safezone" true
      notify_player s device_id "Left safe zone - you can be captured!" "warning"
    else s

/-- `trigger_emergency(device_id, reason)` at wall-clock time `t`. -/
def trigger_emergency (s : GameState) (device_id reason : String) (t : Nat) :
    GameState × Bool × String :=
  match dictLookup s.players device_id with
  | none => (s, false, "Player not found")
  | some player =>
    let s := { s with emergency := true, emergency_by := some player.name, emergency_reason := reason, emergency_time := some t }
    let s := if s.phase = "running" then { s with phase := "paused" } else s
    let s := log_event s "emergency_triggered" true
    let pname := player.name
    let hint := player.last_location_hint
    let s := notify_all_players s s!"🚨 EMERGENCY! {pname} needs help! Location: {hint}" "danger"
    let s := { s with emits := s.emits ++ ["emergency_alert"] }
    (s, true, "Emergency triggered")

/-- `clear_emergency()`: resets the flag and fields; the phase is untouched. -/
def clear_emergency (s : GameState) : GameState :=
  let s := { s with emergency := false, emergency_by := none, emergency_reason := "", emergency_time := none }
  let s := log_event s "emergency_cleared" true
  let s := notify_all_players s "✅ Emergency cleared. Game can resume." "success"
  { s with emits := s.emits ++ ["emergency_cleared"] }

/-- `api_force_role`: moderator override of a player's role. -/
def api_force_role (s : GameState) (device_id new_role : String) :
    GameState × Bool × String :=
  match dictLookup s.players device_id with
  | none => (s, false, "Player not found")
  | some player =>
    if new_role ∉ (["prey", "pred", "unassigned"] : List String) then
      (s, false, "Invalid role")
    else
      let p2 := { player with role := new_role, original_role := new_role }
      let s := { s with players := dictInsert s.players device_id p2 }
      let s := log_event s "force_role" true
      let s := notify_player s device_id s!"Your role was changed to {new_role} by moderator" "warning"
      let s :=
        if (get_mode_config s).team_mode ∧ new_role = "pred" then
          assign_team s device_id
        else if new_role ≠ "pred" then
          match dictLookup s.players device_id with
          | some p3 => { s with players := dictInsert s.players device_id { p3 with team := none } }
          | none => s
        else s
      (s, true, "")

/-- `api_release_player`: moderator releases a captured player
    (note the source clears `captured_by` but not `captured_by_device`). -/
def api_release_player (s : GameState) (device_id : String) : GameState :=
  match dictLookup s.players device_id with
  | none => s
  | some p =>
    if p.status = "captured" then
      let s := { s with players := dictInsert s.players device_id { p with status := "active", captured_by := none } }
      let s := log_event s "mod_release" true
      notify_player s device_id "Moderator released you!" "success"
    else s

/-- The per-player zeroing applied by `api_reset_game` (identity/profile
    fields — device id, nickname, name, profile picture, consent flags,
    phone number — are untouched). -/
def resetPlayer (p : Player) : Player :=
  { p with status := if p.online then "lobby" else "offline", role := "unassigned", original_role := "unassigned", team := none, captures := 0, escapes := 0, times_captured := 0, sightings := 0, points := 0, in_safe_zone := false, safe_zone_beacon := none, captured_by := none, captured_by_device := none, captured_prey := [], has_photo_of := [], infections := 0, nearby_players := [], last_rssi := [], ready := false }

/-- `api_reset_game`: back to lobby with the default mode, zeroing every
    per-game player field while preserving identity/profile fields; cooldown
    and bounty maps cleared; event log trimmed to the last 50 entries
    (on-disk sighting photos are external storage, outside the model). -/
def api_reset_game (s : GameState) : GameState :=
  let s := { s with phase := "lobby", mode := "classic", start_time := none, end_time := none, emergency := false, emergency_by := none, emergency_reason := "", emergency_time := none }
  let s := { s with players := s.players.map (fun kp : String × Player => (kp.1, resetPlayer kp.2)) }
  let s := { s with team_scores := s.team_scores.map (fun kv : String × Int => (kv.1, (0 : Int))) }
  let s := { s with capture_cooldowns := [], sighting_cooldowns := [], bounties := [] }
  let s := { s with events := s.events.drop (s.events.length - 50) }
  let s := log_event s "game_reset" true
  let s := notify_all_players s "Game reset to lobby" "info"
  { s with emits := s.emits ++ ["game_reset"] }

/-- Per-player photo-list reset on game start in photo-required modes. -/
def startClearPhotos (p : Player) : Player :=
  { p with has_photo_of := ([] : List String) }

/-- Per-player ready-to-active promotion on game start. -/
def startPromote (p : Player) : Player :=
  if p.status = "ready" ∧ p.role ≠ "unassigned" then { p with status := "active" } else p

/-- `api_start_game`: lobby-only, emergency-gated start; clamps the requested
    duration/countdown, moves to countdown, promotes ready players to active
    (the delayed countdown-to-running commit is `start_after_countdown`). -/
def api_start_game (s : GameState) (duration_req countdown_req : Option Int) :
    GameState × Bool × String :=
  if s.phase ≠ "lobby" then (s, false, "Not in lobby")
  else if s.emergency then (s, false, "Cannot start game during emergency")
  else
    let pred_count := (s.players.filter (fun kp => kp.2.role = "pred" ∧ kp.2.status = "ready")).length
    let prey_count := (s.players.filter (fun kp => kp.2.role = "prey" ∧ kp.2.status = "ready")).length
    let online_count := (s.players.filter (fun kp => kp.2.online)).length
    if pred_count = 0 then (s, false, "Need at least one ready predator")
    else if prey_count = 0 then (s, false, "Need at least one ready prey")
    else if online_count < 2 then (s, false, "Need at least 2 online players")
    else
      let s := if pred_count > prey_count * 2 then log_event s "game_imbalance" true else s
      let mc := get_mode_config s
      let s := { s with duration := (min (max (duration_req.getD (mc.duration : Int)) 5) 180).toNat, countdown := (min (max (countdown_req.getD 10) 5) 60).toNat, phase := "countdown" }
      let s := if mc.photo_required then { s with players := s.players.map (fun kp : String × Player => (kp.1, startClearPhotos kp.2)) } else s
      let s := { s with players := s.players.map (fun kp : String × Player => (kp.1, startPromote kp.2)) }
      let s := log_event s "game_start" true
      let cd := s.countdown
      let mname := mc.name
      let s := notify_all_players s s!"{mname} starting in {cd} seconds!" "warning"
      let s := { s with emits := s.emits ++ ["game_starting"] }
      (s, true, "")

/-- The delayed `start_after_countdown` closure, run when the countdown delay
    elapses at wall-clock time `t`: commits countdown to running only if the
    phase is still `countdown`. -/
def start_after_countdown (s : GameState) (t : Nat) : GameState :=
  if s.phase = "countdown" then
    let s := { s with phase := "running", start_time := some t, end_time := some (t + s.duration * 60) }
    let s := log_event s "game_running" true
    let mname := (get_mode_config s).name
    let s := notify_all_players s s!"🎮 {mname} STARTED! Good luck!" "success"
    { s with emits := s.emits ++ ["game_started"] }
  else s

/-- `api_pause_game` at wall-clock time `t`: running pauses (remembering the
    remaining seconds), countdown cancels back to lobby, anything else no-ops. -/
def api_pause_game (s : GameState) (t : Nat) : GameState :=
  if s.phase = "running" then
    let s := { s with phase := "paused" }
    let s := match s.end_time with
      | some et => { s with paused_remaining := some (et - t) }
      | none => s
    let s := log_event s "game_pause" true
    let s := notify_all_players s "Game PAUSED" "warning"
    { s with emits := s.emits ++ ["game_paused"] }
  else if s.phase = "countdown" then
    let s := { s with phase := "lobby" }
    let s := log_event s "countdown_cancel" true
    let s := notify_all_players s "Countdown CANCELLED" "warning"
    { s with emits := s.emits ++ ["countdown_cancelled"] }
  else s

/-- `api_resume_game` at wall-clock time `t`: rejected while an emergency is
    active; otherwise paused resumes to running, restoring the saved remaining
    time into a fresh deadline (Python truthiness: a saved remaining of 0 is
    falsy and is neither restored nor deleted). -/
def api_resume_game (s : GameState) (t : Nat) : GameState × Bool × String :=
  if s.emergency then (s, false, "Cannot resume during emergency. Clear emergency first.")
  else if s.phase = "paused" then
    let s := { s with phase := "running" }
    let s := match s.paused_remaining with
      | some r => if r ≠ 0 then { s with end_time := some (t + r), paused_remaining := none } else s
      | none => s
    let s := log_event s "game_resume" true
    let s := notify_all_players s "Game RESUMED!" "success"
    ({ s with emits := s.emits ++ ["game_resumed"] }, true, "")
  else (s, true, "")

/-- Python `l[-n:]`. -/
def lastN {α : Type} (l : List α) (n : Nat) : List α :=
  l.drop (l.length - n)

/-- Insert into a list kept sorted by strictly descending key, placing the new
    element after existing equal keys (matching Python stable sort with
    `reverse=True`). -/
def insertDesc {α : Type} (key : α → Int) (x : α) : List α → List α
  | [] => [x]
  | y :: ys => if key y ≥ key x then y :: insertDesc key x ys else x :: y :: ys

/-- Stable descending sort by an `Int` key (Python `sort(key=..., reverse=True)`). -/
def sortDescBy {α : Type} (key : α → Int) (l : List α) : List α :=
  l.foldl (fun acc x => insertDesc key x acc) []

/-- `get_player(device_id)`: lazy creation on first contact, refused past the
    `MAX_PLAYERS` ceiling; returns the (possibly new) record. -/
def get_player (s : GameState) (device_id : String) (t : Nat) :
    GameState × Option Player :=
  match dictLookup s.players device_id with
  | some p => (s, some p)
  | none =>
    if s.players.length ≥ MAX_PLAYERS then (s, none)
    else
      let suffix := device_id.drop (device_id.length - 4)
      let p : Player :=
        { device_id := device_id, nickname := "", name := "Player_" ++ suffix,
          profile_pic := none, role := "unassigned", original_role := "unassigned",
          status := "offline", online := false, in_safe_zone := false,
          safe_zone_beacon := none, team := none, captures := 0, escapes := 0,
          times_captured := 0, sightings := 0, points := 0, last_ping := t,
          last_rssi := [], last_location_hint := "", nearby_players := [],
          notifications := [], captured_by := none, captured_by_device := none,
          captured_prey := [], has_photo_of := [], infections := 0,
          consent_physical_tag := false, consent_photo_visible := true,
          consent_location_share := true, ready := false, phone_number := "" }
      let s := { s with players := s.players ++ [(device_id, p)] }
      let s := log_event s "player_join" true
      (s, some p)

/-- The firmware poll response of `api_tracker_ping` (JSON payload fields that
    a claim can observe; `settings` carries the four game settings). -/
structure PingResponse where
  phase : String
  status : String
  role : String
  name : String
  in_safe_zone : Bool
  team : Option String
  notifications : List Notif
  honor_system : Bool
  capture_rssi : Int
  safezone_rssi : Int
  allow_role_change : Bool
  beacons : List String
  game_mode : String
  game_mode_name : String
  emergency : Bool
  emergency_by : Option String
  infection_mode : Bool
  photo_required : Bool
  has_photo_of : List String
  consent_badge : String
  consent_physical : Bool
  consent_photo : Bool
  ready : Bool
  my_captures : List (String × String × Bool)
  captured_by_name : Option String
  captured_by_device : Option String
deriving Repr, DecidableEq

/-- Python `str.strip()` on ASCII whitespace (structural recursion so that
    concrete witnesses evaluate inside the kernel). -/
def pyStrip (s : String) : String :=
  ⟨((s.data.dropWhile Char.isWhitespace).reverse.dropWhile Char.isWhitespace).reverse⟩

/-- Python `str.upper()` (characterwise uppercase). -/
def pyUpper (s : String) : String :=
  ⟨s.data.map Char.toUpper⟩

/-- `api_tracker_ping`: the firmware polling contract.  `none` responses model
    the 400 error on a blank device id, and the crash when the player ceiling
    refuses creation.  The optional rssi maps model absent JSON keys. -/
def api_tracker_ping (s : GameState) (device_id_raw : String)
    (player_rssi beacon_rssi : Option (List (String × Int))) (t : Nat) :
    GameState × Option PingResponse :=
  let device_id := pyUpper (pyStrip device_id_raw)
  if device_id = "" then (s, none)
  else
    match get_player s device_id t with
    | (s, none) => (s, none)
    | (s, some _) =>
      match dictLookup s.players device_id with
      | none => (s, none)
      | some p =>
        let p := { p with online := true, last_ping := t }
        let s := { s with players := dictInsert s.players device_id p }
        let s :=
          if p.status = "offline" then
            let s := { s with players := dictInsert s.players device_id { p with status := "lobby" } }
            log_event s "tracker_connect" true
          else s
        let s :=
          match player_rssi with
          | some pr =>
            (match dictLookup s.players device_id with
             | some p =>
               let nearby := pr.filterMap (fun kv : String × Int =>
                 match dictLookup s.players kv.1 with
                 | some q => some (kv.1, q.name, kv.2)
                 | none => none)
               let nearbyTop := (sortDescBy (fun x : String × String × Int => x.2.2) nearby).take 5
               let p := { p with last_rssi := pr, nearby_players := nearbyTop }
               let p :=
                 match nearbyTop.head? with
                 | some nb =>
                   if p.consent_location_share then
                     let nbname := nb.2.1
                     let nbr := nb.2.2
                     { p with last_location_hint := s!"Near {nbname} ({nbr}dB)" }
                   else { p with last_location_hint := "Location hidden by player preference" }
                 | none => p
               { s with players := dictInsert s.players device_id p }
             | none => s)
          | none => s
        let s :=
          match beacon_rssi with
          | some br => update_safe_zone s device_id br
          | none => s
        match dictLookup s.players device_id with
        | none => (s, none)
        | some p =>
          let notifs := lastN p.notifications 5
          let s := { s with players := dictInsert s.players device_id { p with notifications := [] } }
          let mc := get_mode_config s
          let badge_parts :=
            (if p.consent_physical_tag then ["T"] else [])
              ++ (if ¬p.consent_photo_visible then ["NP"] else [])
              ++ (if ¬p.consent_location_share then ["NL"] else [])
          let consent_badge := if badge_parts = [] then "STD" else String.join badge_parts
          let team_value :=
            match p.team with
            | some tm => if tm = "" then none else some tm
            | none => none
          let my_captures :=
            if p.role = "pred" then
              p.captured_prey.filterMap (fun pid =>
                match dictLookup s.players pid with
                | some q => some (pid, q.name, decide (q.status ≠ "captured" ∨ q.captured_by_device ≠ some device_id))
                | none => none)
            else []
          let active_beacon_ids := (s.beacons.filter (fun kb => kb.2.active)).map (·.1)
          (s, some
            { phase := s.phase, status := p.status, role := p.role, name := p.name,
              in_safe_zone := p.in_safe_zone, team := team_value,
              notifications := notifs, honor_system := s.honor_system,
              capture_rssi := s.capture_rssi, safezone_rssi := s.safezone_rssi,
              allow_role_change := s.allow_role_change,
              beacons := active_beacon_ids, game_mode := s.mode,
              game_mode_name := mc.name, emergency := s.emergency,
              emergency_by := s.emergency_by, infection_mode := mc.infection,
              photo_required := mc.photo_required, has_photo_of := p.has_photo_of,
              consent_badge := consent_badge,
              consent_physical := p.consent_physical_tag,
              consent_photo := p.consent_photo_visible, ready := p.ready,
              my_captures := my_captures, captured_by_name := p.captured_by,
              captured_by_device := p.captured_by_device })

/-- `api_upload_sighting`: precondition chain and bookkeeping of a sighting
    photo upload (`photo` is the uploaded filename, `none` when no file part;
    the blob storage itself is an external collaborator). -/
def api_upload_sighting (s : GameState) (device_id target_id_raw : String)
    (photo : Option String) (t : Nat) : GameState × Bool × String :=
  if device_id = "ADMIN" then (s, false, "Admin cannot upload sightings")
  else
    match get_player s device_id t with
    | (s, playerOpt) =>
      if s.phase ≠ "running" then (s, false, "Game not running")
      else if s.emergency then (s, false, "Game paused for emergency")
      else
        let target_id := target_id_raw.toUpper
        match dictLookup s.players target_id with
        | none => (s, false, "Target not found")
        | some target =>
          match playerOpt with
          | none => (s, false, "TypeError: player ceiling reached")
          | some player =>
            if player.role = "pred" ∧ target.role ≠ "prey" then (s, false, "Preds can only spot prey")
            else if player.role = "prey" ∧ target.role ≠ "pred" then (s, false, "Prey can only spot preds")
            else if ¬target.consent_photo_visible then
              let tname := target.name
              (s, false, s!"{tname} has disabled photo visibility")
            else
              let cooldown_key := device_id ++ "_" ++ target_id
              let blocked : Bool :=
                match dictLookup s.sighting_cooldowns cooldown_key with
                | some last => decide (t - last < SIGHTING_COOLDOWN)
                | none => false
              if blocked then (s, false, "Wait before spotting again")
              else
                let s := { s with sighting_cooldowns := dictInsert s.sighting_cooldowns cooldown_key t }
                match photo with
                | none => (s, false, "No photo")
                | some fname =>
                  if fname = "" then (s, false, "No photo selected")
                  else
                    let ext :=
                      if fname.contains '.' then ((fname.splitOn ".").getLastD "jpg").toLower
                      else "jpg"
                    if ext ∉ (["jpg", "jpeg", "png", "gif", "webp"] : List String) then
                      (s, false, "Invalid file type")
                    else
                      let mc := get_mode_config s
                      match dictLookup s.players device_id with
                      | none => (s, false, "TypeError: player ceiling reached")
                      | some pl =>
                        let pl2 := { pl with sightings := pl.sightings + 1 }
                        let s := { s with players := dictInsert s.players device_id pl2 }
                        let s :=
                          if mc.photo_required ∧ pl2.role = "pred" ∧ target_id ∉ pl2.has_photo_of then
                            let s := { s with players := dictInsert s.players device_id { pl2 with has_photo_of := pl2.has_photo_of ++ [target_id] } }
                            let tname := target.name
                            notify_player s device_id s!"✅ You can now capture {tname}!" "success"
                          else s
                        let s := log_event s "sighting" true
                        let spts := mc.sighting_points
                        let s := notify_player s device_id s!"Sighting recorded! +{spts} pts" "success"
                        let pname := player.name
                        let s := notify_player s target_id s!"You were spotted by {pname}!" "warning"
                        let s := { s with emits := s.emits ++ ["sighting"] }
                        (s, true, "")

/-- The process-startup `game` dict plus empty registries (module top level of
    `app.py`). -/
def initialState : GameState :=
  { phase := "lobby", mode := "classic", start_time := none, end_time := none,
    duration := 30, countdown := 10, emergency := false, emergency_by := none,
    emergency_reason := "", emergency_time := none, honor_system := false,
    capture_rssi := DEFAULT_CAPTURE_RSSI, safezone_rssi := DEFAULT_SAFEZONE_RSSI,
    allow_role_change := true, paused_remaining := none, players := [],
    beacons := [], events := [], event_counter := 0, bounties := [],
    capture_cooldowns := [], sighting_cooldowns := [],
    team_scores := [("Alpha", 0), ("Beta", 0), ("Gamma", 0), ("Delta", 0)],
    moderators := [], player_achievements := [], emits := [] }

/-- A freshly-created player record as `get_player` builds it, for use in
    concrete test states. -/
def freshPlayer (id : String) : Player :=
  { device_id := id, nickname := "", name := "Player_" ++ id.drop (id.length - 4),
    profile_pic := none, role := "unassigned", original_role := "unassigned",
    status := "offline", online := false, in_safe_zone := false,
    safe_zone_beacon := none, team := none, captures := 0, escapes := 0,
    times_captured := 0, sightings := 0, points := 0, last_ping := 0,
    last_rssi := [], last_location_hint := "", nearby_players := [],
    notifications := [], captured_by := none, captured_by_device := none,
    captured_prey := [], has_photo_of := [], infections := 0,
    consent_physical_tag := false, consent_photo_visible := true,
    consent_location_share := true, ready := false, phone_number := "" }

/-- Test fixture: an active predator. -/
def witnessPred : Player :=
  { (freshPlayer "P1P1") with role := "pred", status := "active", online := true }

/-- Test fixture: an active prey currently inside a safe zone. -/
def witnessSafePrey : Player :=
  { (freshPlayer "P2P2") with role := "prey", status := "active", online := true, in_safe_zone := true }

/-- Test fixture: an active prey outside any safe zone. -/
def witnessFreePrey : Player :=
  { (freshPlayer "P2P2") with role := "prey", status := "active", online := true }

/-- Test fixture: a running classic game where the predator hunts a prey that
    is inside a safe zone. -/
def witnessSafeState : GameState :=
  { initialState with phase := "running", players := [("P1P1", witnessPred), ("P2P2", witnessSafePrey)] }

/-- Test fixture: a running classic game with a capturable prey. -/
def witnessRunState : GameState :=
  { initialState with phase := "running", players := [("P1P1", witnessPred), ("P2P2", witnessFreePrey)] }

/-- Test fixture: the running game with a 70-point bounty on the prey. -/
def witnessBountyState : GameState :=
  { witnessRunState with bounties := [("P2P2", { points := 70, reason := "wanted" })] }

/-- Test fixture: a prey currently held captured (linked to its captor). -/
def witnessCapturedPrey : Player :=
  { (freshPlayer "P2P2") with role := "prey", status := "captured", online := true, captured_by := some "Player_P1P1", captured_by_device := some "P1P1", times_captured := 1 }

/-- Test fixture: a running game holding one captured prey. -/
def witnessCapturedState : GameState :=
  { initialState with phase := "running", players := [("P1P1", witnessPred), ("P2P2", witnessCapturedPrey)] }

/-- Test fixture: an active safe-zone beacon with threshold -75. -/
def witnessBeacon : Beacon := { name := "Home Base", rssi := -75, active := true }

/-- Test fixture: the running game with one registered active beacon. -/
def witnessBeaconState : GameState :=
  { witnessRunState with beacons := [("SZ01", witnessBeacon)] }

/-- Test fixture: a beacon whose threshold was pushed below the scan sentinel
    (reachable through the unvalidated beacon-update endpoint). -/
def witnessDeepBeacon : Beacon := { name := "Deep", rssi := -1500, active := true }

/-- Test fixture: the running game with the deep-threshold beacon. -/
def witnessDeepState : GameState :=
  { witnessRunState with beacons := [("SZ99", witnessDeepBeacon)] }

/-- Test fixture: the running game with an active emergency. -/
def witnessEmergencyState : GameState :=
  { witnessRunState with emergency := true, emergency_by := some "Player_P2P2" }

/-- Test fixture: the predator with eight queued notifications. -/
def witnessNotifPlayer : Player :=
  { witnessPred with notifications := (List.range 8).map (fun i => { message := toString i, msg_type := "info" }) }

/-- Test fixture: a state whose predator has a backlog of notifications. -/
def witnessNotifState : GameState :=
  { initialState with players := [("P1P1", witnessNotifPlayer)] }

/-- Test fixture: the running two-player game in infection mode. -/
def witnessInfState : GameState :=
  { witnessRunState with mode := "infection" }

/-- Test fixture: the two-player game paused with no emergency active. -/
def witnessPausedState : GameState :=
  { witnessRunState with phase := "paused" }

/-- The state-machine invariant of claim C5 (lookup form): any player whose
    status is `captured` has role `prey`. -/
def StatusInv (s : GameState) : Prop :=
  ∀ k p, dictLookup s.players k = some p → p.status = "captured" → p.role = "prey"

/-- Observe one field of the player stored under `k` (used to trace how the
    operations transform individual player fields). -/
def fieldOf {α : Type} (f : Player → α) (s : GameState) (k : String) : Option α :=
  (dictLookup s.players k).map f

/-- Qualification of a beacon reading against a beacon registry: the beacon
    exists, is active, and the signal meets or exceeds its threshold. -/
def qualifiesIn (B : List (String × Beacon)) (bid : String) (r : Int) : Bool :=
  match dictLookup B bid with
  | some b => b.active && r ≥ b.rssi
  | none => false

/-- The safe-zone qualification rule exactly as the spec sentence words it
    (for comparison against the scan in `update_safe_zone`): the beacon
    exists in the registry, is active, and the signal meets or exceeds the
    beacon's configured threshold. -/
def beaconQualifiesSpec (s : GameState) (bid : String) (r : Int) : Bool :=
  qualifiesIn s.beacons bid r

theorem dictLookup_dictInsert_self {α : Type} (m : List (String × α)) (k : String)
    (v : α) : dictLookup (dictInsert m k v) k = some v := by
  induction m with
  | nil => simp [dictInsert, dictLookup]
  | cons kv rest ih =>
    obtain ⟨k', v'⟩ := kv
    by_cases h : k' = k <;> simp [dictInsert, dictLookup, h, ih]

theorem dictLookup_dictInsert_ne {α : Type} (m : List (String × α)) (k k' : String)
    (v : α) (h : k' ≠ k) : dictLookup (dictInsert m k v) k' = dictLookup m k' := by
  induction m with
  | nil => simp [dictInsert, dictLookup, Ne.symm h]
  | cons kv rest ih =>
    obtain ⟨k0, v0⟩ := kv
    by_cases h0 : k0 = k
    · subst h0
      simp [dictInsert, dictLookup, Ne.symm h]
    · by_cases h1 : k0 = k' <;> simp [dictInsert, dictLookup, h0, h1, ih, h]

theorem dictLookup_map {α β : Type} (f : α → β) (m : List (String × α))
    (k : String) :
    dictLookup (m.map (fun kp => (kp.1, f kp.2))) k = (dictLookup m k).map f := by
  induction m with
  | nil => simp [dictLookup]
  | cons kv rest ih =>
    by_cases h : kv.1 = k <;> simp [dictLookup, h, ih]

theorem log_event_players (s : GameState) (e : String) (b : Bool) :
    (log_event s e b).players = s.players := rfl

theorem log_event_phase (s : GameState) (e : String) (b : Bool) :
    (log_event s e b).phase = s.phase := rfl

theorem notify_player_players (s : GameState) (d m ty : String) :
    (notify_player s d m ty).players =
      match dictLookup s.players d with
      | none => s.players
      | some p => dictInsert s.players d (mapNotif (Notif.mk m ty) p) := by
  unfold notify_player
  cases dictLookup s.players d <;> rfl

theorem notify_player_phase (s : GameState) (d m ty : String) :
    (notify_player s d m ty).phase = s.phase := by
  unfold notify_player
  cases dictLookup s.players d <;> rfl

theorem lookup_notify_player_self (s : GameState) (d m ty : String) (p : Player)
    (h : dictLookup s.players d = some p) :
    dictLookup (notify_player s d m ty).players d =
      some (mapNotif (Notif.mk m ty) p) := by
  rw [notify_player_players]
  simp only [h]
  exact dictLookup_dictInsert_self ..

theorem lookup_notify_player_ne (s : GameState) (d m ty k : String) (h : k ≠ d) :
    dictLookup (notify_player s d m ty).players k = dictLookup s.players k := by
  rw [notify_player_players]
  cases hd : dictLookup s.players d with
  | none => rfl
  | some p => exact dictLookup_dictInsert_ne _ _ _ _ h

theorem notify_all_players_phase (s : GameState) (m ty : String) :
    (notify_all_players s m ty).phase = s.phase := rfl

theorem lookup_notify_all (s : GameState) (m ty k : String) :
    dictLookup (notify_all_players s m ty).players k =
      (dictLookup s.players k).map (mapNotif (Notif.mk m ty)) := by
  unfold notify_all_players
  exact dictLookup_map ..

theorem playersInv_insert {m : List (String × Player)} {k : String} {v : Player}
    (h : ∀ k' p, dictLookup m k' = some p → p.status = "captured" → p.role = "prey")
    (hv : v.status = "captured" → v.role = "prey") :
    ∀ k' p, dictLookup (dictInsert m k v) k' = some p →
      p.status = "captured" → p.role = "prey" := by
  intro k' p hl hs
  by_cases hk : k' = k
  · subst hk
    rw [dictLookup_dictInsert_self] at hl
    cases hl
    exact hv hs
  · rw [dictLookup_dictInsert_ne _ _ _ _ hk] at hl
    exact h _ _ hl hs

theorem StatusInv_players_eq {s s' : GameState} (hp : s'.players = s.players)
    (h : StatusInv s) : StatusInv s' := by
  intro k p hk hs
  rw [hp] at hk
  exact h k p hk hs

theorem StatusInv_ite (c : Prop) [Decidable c] (a b : GameState)
    (ha : StatusInv a) (hb : StatusInv b) : StatusInv (if c then a else b) := by
  split
  · exact ha
  · exact hb

theorem StatusInv_log_event {s : GameState} (e : String) (b : Bool)
    (h : StatusInv s) : StatusInv (log_event s e b) :=
  StatusInv_players_eq (log_event_players ..) h

theorem StatusInv_notify_player {s : GameState} (d m ty : String)
    (h : StatusInv s) : StatusInv (notify_player s d m ty) := by
  intro k p hk hs
  rw [notify_player_players] at hk
  cases hd : dictLookup s.players d with
  | none =>
    rw [hd] at hk
    exact h k p hk hs
  | some q =>
    simp only [hd] at hk
    have hv : (mapNotif (Notif.mk m ty) q).status = "captured" →
        (mapNotif (Notif.mk m ty) q).role = "prey" := fun hs' => h d q hd hs'
    exact playersInv_insert h hv _ _ hk hs

theorem StatusInv_notify_all {s : GameState} (m ty : String)
    (h : StatusInv s) : StatusInv (notify_all_players s m ty) := by
  intro k p hk hs
  rw [lookup_notify_all] at hk
  cases hq : dictLookup s.players k with
  | none => rw [hq] at hk; cases hk
  | some q =>
    rw [hq] at hk
    rw [Option.map_some'] at hk
    cases hk
    exact h k q hq hs

theorem StatusInv_award_achievement {s : GameState} (d key : String)
    (h : StatusInv s) : StatusInv (award_achievement s d key) := by
  simp only [award_achievement]
  split
  · exact h
  · apply StatusInv_log_event
    split
    · exact StatusInv_notify_player _ _ _ (StatusInv_players_eq rfl h)
    · exact StatusInv_players_eq rfl h

theorem StatusInv_check_achievements {s : GameState} (d : String)
    (h : StatusInv s) : StatusInv (check_achievements s d) := by
  unfold check_achievements
  cases hd : dictLookup s.players d with
  | none => exact h
  | some p =>
    dsimp only
    have h1 : StatusInv (if p.escapes ≥ 3 then award_achievement s d "escape_artist" else s) :=
      StatusInv_ite _ _ _ (StatusInv_award_achievement _ _ h) h
    have h2 := StatusInv_ite (p.captures ≥ 5) _ _
      (StatusInv_award_achievement d "hunter_elite" h1) h1
    exact StatusInv_ite (p.sightings ≥ 10) _ _
      (StatusInv_award_achievement d "paparazzi" h2) h2

theorem StatusInv_set_players {s : GameState} {m : List (String × Player)}
    (hm : ∀ k p, dictLookup m k = some p → p.status = "captured" → p.role = "prey") :
    StatusInv { s with players := m } := fun k p hk hs => hm k p hk hs

theorem StatusInv_set_insert {s : GameState} {k : String} {v : Player}
    (h : StatusInv s) (hv : v.status = "captured" → v.role = "prey") :
    StatusInv { s with players := dictInsert s.players k v } :=
  fun k' p hk hs => playersInv_insert h hv k' p hk hs

theorem scanStep_players (acc : GameState × Bool × Option String × Int)
    (br : String × Int) : (scanStep acc br).1.players = acc.1.players := by
  unfold scanStep
  split <;> split <;> split <;> rfl

theorem scanStep_beacons (acc : GameState × Bool × Option String × Int)
    (br : String × Int) : (scanStep acc br).1.beacons = acc.1.beacons := by
  unfold scanStep
  split <;> split <;> split <;> rfl

theorem scanStep_emits (acc : GameState × Bool × Option String × Int)
    (br : String × Int) : (scanStep acc br).1.emits = acc.1.emits := by
  unfold scanStep
  split <;> split <;> split <;> rfl

theorem scanStep_mode (acc : GameState × Bool × Option String × Int)
    (br : String × Int) : (scanStep acc br).1.mode = acc.1.mode := by
  unfold scanStep
  split <;> split <;> split <;> rfl

theorem scan_foldl_players (l : List (String × Int))
    (acc : GameState × Bool × Option String × Int) :
    (l.foldl scanStep acc).1.players = acc.1.players := by
  induction l generalizing acc with
  | nil => rfl
  | cons br rest ih => rw [List.foldl_cons, ih, scanStep_players]

theorem scan_foldl_beacons (l : List (String × Int))
    (acc : GameState × Bool × Option String × Int) :
    (l.foldl scanStep acc).1.beacons = acc.1.beacons := by
  induction l generalizing acc with
  | nil => rfl
  | cons br rest ih => rw [List.foldl_cons, ih, scanStep_beacons]

theorem scan_foldl_emits (l : List (String × Int))
    (acc : GameState × Bool × Option String × Int) :
    (l.foldl scanStep acc).1.emits = acc.1.emits := by
  induction l generalizing acc with
  | nil => rfl
  | cons br rest ih => rw [List.foldl_cons, ih, scanStep_emits]

theorem scan_foldl_mode (l : List (String × Int))
    (acc : GameState × Bool × Option String × Int) :
    (l.foldl scanStep acc).1.mode = acc.1.mode := by
  induction l generalizing acc with
  | nil => rfl
  | cons br rest ih => rw [List.foldl_cons, ih, scanStep_mode]

theorem log_event_beacons (s : GameState) (e : String) (b : Bool) :
    (log_event s e b).beacons = s.beacons := rfl

theorem scan_aux (B : List (String × Beacon)) (l : List (String × Int)) :
    ∀ (s' : GameState) (sf : Bool) (nb : Option String) (best : Int),
      s'.beacons = B →
      (sf = true → ∃ v, nb = some v) →
      (((l.foldl scanStep (s', sf, nb, best)).2.1 = true) ↔
        (sf = true ∨ ∃ br ∈ l, qualifiesIn B br.1 br.2 = true ∧ br.2 > best)) ∧
      ((l.foldl scanStep (s', sf, nb, best)).2.2.2 ≥ best) ∧
      (∀ br ∈ l, qualifiesIn B br.1 br.2 = true →
        br.2 ≤ (l.foldl scanStep (s', sf, nb, best)).2.2.2) ∧
      ((l.foldl scanStep (s', sf, nb, best)).2.1 = true →
        ∃ nbv, (l.foldl scanStep (s', sf, nb, best)).2.2.1 = some nbv ∧
          (((nbv, (l.foldl scanStep (s', sf, nb, best)).2.2.2) ∈ l ∧
             qualifiesIn B nbv (l.foldl scanStep (s', sf, nb, best)).2.2.2 = true) ∨
           (sf = true ∧ nb = some nbv ∧
             (l.foldl scanStep (s', sf, nb, best)).2.2.2 = best))) := by
  induction l with
  | nil =>
    intro s' sf nb best hB hinv
    refine ⟨by simp, le_refl best, by simp, ?_⟩
    intro hf
    obtain ⟨v, hv⟩ := hinv hf
    exact ⟨v, hv, Or.inr ⟨hf, hv, rfl⟩⟩
  | cons br rest ih =>
    intro s' sf nb best hB hinv
    rw [List.foldl_cons]
    cases hlook : dictLookup s'.beacons br.1 with
    | some b =>
      by_cases hcond : b.active = true ∧ br.2 ≥ b.rssi ∧ br.2 > best
      · have hstep : scanStep (s', sf, nb, best) br = (s', true, some br.1, br.2) := by
          simp only [scanStep, hlook]
          rw [if_pos hcond]
        rw [hstep]
        obtain ⟨iA, iMono, iMax, iC⟩ := ih s' true (some br.1) br.2 hB (fun _ => ⟨br.1, rfl⟩)
        have hqbr : qualifiesIn B br.1 br.2 = true := by
          unfold qualifiesIn
          rw [← hB, hlook]
          simp [hcond.1, hcond.2.1]
        refine ⟨?_, ?_, ?_, ?_⟩
        · constructor
          · intro _
            exact Or.inr ⟨br, List.mem_cons_self .., hqbr, hcond.2.2⟩
          · intro _
            exact iA.mpr (Or.inl rfl)
        · exact le_trans (le_of_lt hcond.2.2) iMono
        · intro br2 hm hq2
          rcases List.mem_cons.mp hm with hh | hh
          · subst hh
            exact le_trans (le_refl _) iMono
          · exact iMax br2 hh hq2
        · intro hf
          obtain ⟨nbv, hnbv, hc⟩ := iC hf
          refine ⟨nbv, hnbv, ?_⟩
          rcases hc with ⟨hmem, hq⟩ | ⟨_, heq, hbest⟩
          · exact Or.inl ⟨List.mem_cons_of_mem _ hmem, hq⟩
          · cases heq
            rw [hbest]
            exact Or.inl ⟨by simp, hqbr⟩
      · have hstep : scanStep (s', sf, nb, best) br = (s', sf, nb, best) := by
          simp only [scanStep, hlook]
          rw [if_neg hcond]
        rw [hstep]
        obtain ⟨iA, iMono, iMax, iC⟩ := ih s' sf nb best hB hinv
        have hnq : qualifiesIn B br.1 br.2 = true → ¬br.2 > best := by
          intro hq hgt
          unfold qualifiesIn at hq
          rw [← hB, hlook] at hq
          simp only [Bool.and_eq_true, decide_eq_true_eq] at hq
          exact hcond ⟨hq.1, hq.2, hgt⟩
        refine ⟨?_, iMono, ?_, ?_⟩
        · rw [iA]
          constructor
          · intro h
            exact h.imp id (fun ⟨br2, hm, hq2, hgt⟩ => ⟨br2, List.mem_cons_of_mem _ hm, hq2, hgt⟩)
          · intro h
            refine h.imp id ?_
            rintro ⟨br2, hm, hq2, hgt⟩
            rcases List.mem_cons.mp hm with hh | hh
            · subst hh
              exact absurd hgt (hnq hq2)
            · exact ⟨br2, hh, hq2, hgt⟩
        · intro br2 hm hq2
          rcases List.mem_cons.mp hm with hh | hh
          · subst hh
            exact le_trans (not_lt.mp (hnq hq2)) iMono
          · exact iMax br2 hh hq2
        · intro hf
          obtain ⟨nbv, hnbv, hc⟩ := iC hf
          refine ⟨nbv, hnbv, ?_⟩
          rcases hc with ⟨hmem, hq⟩ | hrest
          · exact Or.inl ⟨List.mem_cons_of_mem _ hmem, hq⟩
          · exact Or.inr hrest
    | none =>
      have hnq2 : ∀ r : Int, qualifiesIn B br.1 r = true → False := by
        intro r hq
        unfold qualifiesIn at hq
        rw [← hB, hlook] at hq
        cases hq
      have step :
          ∀ (s'' : GameState), s''.beacons = B →
            (((rest.foldl scanStep (s'', sf, nb, best)).2.1 = true) ↔
              (sf = true ∨ ∃ br2 ∈ br :: rest, qualifiesIn B br2.1 br2.2 = true ∧ br2.2 > best)) ∧
            ((rest.foldl scanStep (s'', sf, nb, best)).2.2.2 ≥ best) ∧
            (∀ br2 ∈ br :: rest, qualifiesIn B br2.1 br2.2 = true →
              br2.2 ≤ (rest.foldl scanStep (s'', sf, nb, best)).2.2.2) ∧
            ((rest.foldl scanStep (s'', sf, nb, best)).2.1 = true →
              ∃ nbv, (rest.foldl scanStep (s'', sf, nb, best)).2.2.1 = some nbv ∧
                (((nbv, (rest.foldl scanStep (s'', sf, nb, best)).2.2.2) ∈ br :: rest ∧
                   qualifiesIn B nbv (rest.foldl scanStep (s'', sf, nb, best)).2.2.2 = true) ∨
                 (sf = true ∧ nb = some nbv ∧
                   (rest.foldl scanStep (s'', sf, nb, best)).2.2.2 = best))) := by
        intro s'' hB2
        obtain ⟨iA, iMono, iMax, iC⟩ := ih s'' sf nb best hB2 hinv
        refine ⟨?_, iMono, ?_, ?_⟩
        · rw [iA]
          constructor
          · intro h
            exact h.imp id (fun ⟨br2, hm, hq2, hgt⟩ => ⟨br2, List.mem_cons_of_mem _ hm, hq2, hgt⟩)
          · intro h
            refine h.imp id ?_
            rintro ⟨br2, hm, hq2, hgt⟩
            rcases List.mem_cons.mp hm with hh | hh
            · subst hh
              exact absurd hq2 (fun hq => hnq2 _ hq)
            · exact ⟨br2, hh, hq2, hgt⟩
        · intro br2 hm hq2
          rcases List.mem_cons.mp hm with hh | hh
          · subst hh
            exact absurd hq2 (fun hq => hnq2 _ hq)
          · exact iMax br2 hh hq2
        · intro hf
          obtain ⟨nbv, hnbv, hc⟩ := iC hf
          refine ⟨nbv, hnbv, ?_⟩
          rcases hc with ⟨hmem, hq⟩ | hrest
          · exact Or.inl ⟨List.mem_cons_of_mem _ hmem, hq⟩
          · exact Or.inr hrest
      by_cases hsz : br.1.startsWith "SZ" = true
      · have hstep : scanStep (s', sf, nb, best) br = (log_event s' "unknown_beacon" false, sf, nb, best) := by
          simp only [scanStep, hlook]
          rw [if_pos hsz]
        rw [hstep]
        exact step (log_event s' "unknown_beacon" false) (by rw [log_event_beacons, hB])
      · have hstep : scanStep (s', sf, nb, best) br = (s', sf, nb, best) := by
          simp only [scanStep, hlook]
          rw [if_neg hsz]
        rw [hstep]
        exact step s' hB

theorem StatusInv_process_escape {s : GameState} (pid : String) (b : Option String)
    (h : StatusInv s) : StatusInv (process_escape s pid b).1 := by
  unfold process_escape
  dsimp only
  split
  · exact h
  · cases hq : dictLookup s.players pid with
    | none => exact h
    | some q =>
      dsimp only
      split
      · exact h
      · have hne : ("active" : String) = "captured" → False := by decide
        apply StatusInv_players_eq rfl
        apply StatusInv_check_achievements
        split
        · split
          · apply StatusInv_notify_player
            apply StatusInv_notify_player
            apply StatusInv_log_event
            exact StatusInv_set_insert h (fun hs => absurd hs hne)
          · apply StatusInv_notify_player
            apply StatusInv_log_event
            exact StatusInv_set_insert h (fun hs => absurd hs hne)
        · apply StatusInv_notify_player
          apply StatusInv_log_event
          exact StatusInv_set_insert h (fun hs => absurd hs hne)

theorem StatusInv_infection_end_step {s : GameState} (t : Nat) (h : StatusInv s) :
    StatusInv (infection_end_step s t) := by
  unfold infection_end_step
  dsimp only
  split
  · apply StatusInv_players_eq rfl
    apply StatusInv_notify_all
    apply StatusInv_log_event
    exact StatusInv_players_eq rfl h
  · exact h

theorem StatusInv_bounty_step {s : GameState} (pid qid pn qn : String)
    (h : StatusInv s) : StatusInv (bounty_step s pid qid pn qn) := by
  unfold bounty_step
  split
  · apply StatusInv_players_eq rfl
    apply StatusInv_notify_all
    apply StatusInv_notify_player
    apply StatusInv_log_event
    split
    · rename_i pr hpr
      exact StatusInv_set_insert h (fun hs => h _ pr hpr hs)
    · exact h
  · exact h

theorem StatusInv_first_blood_step {s : GameState} (pid pn : String)
    (h : StatusInv s) : StatusInv (first_blood_step s pid pn) := by
  unfold first_blood_step
  dsimp only
  split
  · apply StatusInv_notify_all
    exact StatusInv_award_achievement _ _ h
  · exact h

theorem StatusInv_capture_commit {s : GameState} {mc : ModeConfig}
    {pid qid : String} {pred prey_p : Player} {rssi : Int} {t : Nat}
    (h : StatusInv s)
    (hpred : dictLookup s.players pid = some pred)
    (hqrole : prey_p.role = "prey") :
    StatusInv (capture_commit s mc pid qid pred prey_p rssi t).1 := by
  have hne : ("active" : String) = "captured" → False := by decide
  unfold capture_commit
  dsimp only
  split
  · apply StatusInv_infection_end_step
    apply StatusInv_players_eq rfl
    apply StatusInv_notify_all
    apply StatusInv_notify_player
    apply StatusInv_notify_player
    apply StatusInv_log_event
    intro k p hk hs
    dsimp only at hk
    refine playersInv_insert (playersInv_insert h (fun hs' => absurd hs' hne)) ?_ k p hk hs
    intro hs'
    exact h pid pred hpred hs'
  · apply StatusInv_check_achievements
    apply StatusInv_first_blood_step
    apply StatusInv_bounty_step
    apply StatusInv_players_eq rfl
    apply StatusInv_notify_player
    apply StatusInv_notify_player
    apply StatusInv_log_event
    split
    · split
      · apply StatusInv_players_eq rfl
        intro k p hk hs
        dsimp only at hk
        refine playersInv_insert (playersInv_insert h ?_) ?_ k p hk hs
        · intro hs2
          exact hqrole
        · intro hs'
          exact h pid pred hpred hs'
      · intro k p hk hs
        dsimp only at hk
        refine playersInv_insert (playersInv_insert h ?_) ?_ k p hk hs
        · intro hs2
          exact hqrole
        · intro hs'
          exact h pid pred hpred hs'
    · intro k p hk hs
      dsimp only at hk
      refine playersInv_insert (playersInv_insert h ?_) ?_ k p hk hs
      · intro hs2
        exact hqrole
      · intro hs'
        exact h pid pred hpred hs'

theorem StatusInv_process_capture {s : GameState} (pid qid : String) (rssi : Int)
    (t : Nat) (h : StatusInv s) : StatusInv (process_capture s pid qid rssi t).1 := by
  unfold process_capture
  cases hp : dictLookup s.players pid with
  | none => exact h
  | some pred =>
    cases hq : dictLookup s.players qid with
    | none => exact h
    | some prey_p =>
      dsimp only
      by_cases e1 : pid = qid
      · rw [if_pos e1]; exact h
      · rw [if_neg e1]
        by_cases e2 : pred.role ≠ "pred"
        · rw [if_pos e2]; exact h
        · rw [if_neg e2]
          by_cases e3 : prey_p.role ≠ "prey"
          · rw [if_pos e3]; exact h
          · rw [if_neg e3]
            by_cases e4 : prey_p.status = "captured" ∧ ¬(get_mode_config s).infection = true
            · rw [if_pos e4]; exact h
            · rw [if_neg e4]
              by_cases e5 : prey_p.in_safe_zone = true ∧ ¬(get_mode_config s).infection = true
              · rw [if_pos e5]; exact h
              · rw [if_neg e5]
                by_cases e6 : s.phase ≠ "running"
                · rw [if_pos e6]; exact h
                · rw [if_neg e6]
                  by_cases e7 : s.emergency = true
                  · rw [if_pos e7]; exact h
                  · rw [if_neg e7]
                    by_cases e8 : rssi < s.capture_rssi
                    · rw [if_pos e8]; exact h
                    · rw [if_neg e8]
                      by_cases e9 : (get_mode_config s).photo_required = true ∧ qid ∉ pred.has_photo_of
                      · rw [if_pos e9]; exact h
                      · rw [if_neg e9]
                        cases hc : dictLookup s.capture_cooldowns pid with
                        | none => exact StatusInv_capture_commit h hp (not_ne_iff.mp e3)
                        | some last =>
                          dsimp only
                          split
                          · exact h
                          · exact StatusInv_capture_commit h hp (not_ne_iff.mp e3)

theorem StatusInv_update_safe_zone {s : GameState} (d : String)
    (br : List (String × Int)) (h : StatusInv s) :
    StatusInv (update_safe_zone s d br) := by
  unfold update_safe_zone
  cases hd : dictLookup s.players d with
  | none => exact h
  | some player =>
    dsimp only
    have hscan : StatusInv (br.foldl scanStep (s, false, none, (-999 : Int))).1 :=
      StatusInv_players_eq (scan_foldl_players ..) h
    have hv : player.status = "captured" → player.role = "prey" := h d player hd
    split
    · split
      · split
        · apply StatusInv_process_escape
          apply StatusInv_notify_player
          apply StatusInv_log_event
          exact StatusInv_set_insert hscan hv
        · apply StatusInv_notify_player
          apply StatusInv_log_event
          exact StatusInv_set_insert hscan hv
      · exact hscan
    · split
      · apply StatusInv_notify_player
        apply StatusInv_log_event
        exact StatusInv_set_insert hscan hv
      · exact hscan

theorem StatusInv_api_release_player {s : GameState} (d : String)
    (h : StatusInv s) : StatusInv (api_release_player s d) := by
  have hne : ("active" : String) = "captured" → False := by decide
  unfold api_release_player
  cases hd : dictLookup s.players d with
  | none => exact h
  | some p =>
    dsimp only
    split
    · apply StatusInv_notify_player
      apply StatusInv_log_event
      exact StatusInv_set_insert h (fun hs => absurd hs hne)
    · exact h

theorem StatusInv_api_reset_game (s : GameState) :
    StatusInv (api_reset_game s) := by
  unfold api_reset_game
  apply StatusInv_players_eq rfl
  apply StatusInv_notify_all
  apply StatusInv_log_event
  apply StatusInv_players_eq rfl
  apply StatusInv_players_eq rfl
  apply StatusInv_players_eq rfl
  intro k p hk hs
  rw [dictLookup_map] at hk
  cases hql : dictLookup s.players k with
  | none => rw [hql] at hk; cases hk
  | some q =>
    rw [hql, Option.map_some'] at hk
    cases hk
    exfalso
    unfold resetPlayer at hs
    split at hs <;> simp at hs

theorem capture_commit_success (s : GameState) (mc : ModeConfig)
    (pred_id prey_id : String) (pred prey_p : Player) (rssi : Int) (t : Nat) :
    (capture_commit s mc pred_id prey_id pred prey_p rssi t).2.1 = true := by
  unfold capture_commit
  by_cases h : mc.infection = true <;> simp [h]

/-- C8: the delayed countdown-to-running transition commits only if the phase
    is still `countdown` when the delay elapses; on any other phase it leaves
    the state (phase, start time, deadline) unchanged, and in particular never
    moves a non-countdown phase to `running` unless it was already running. -/
theorem C8_countdown_commit_checks_phase (s : GameState) (t : Nat) :
    (s.phase ≠ "countdown" → start_after_countdown s t = s) ∧
    ((start_after_countdown s t).phase = "running" →
      s.phase = "countdown" ∨ s.phase = "running") := by
  constructor
  · intro h
    unfold start_after_countdown
    simp [h]
  · intro h
    by_cases hc : s.phase = "countdown"
    · exact Or.inl hc
    · unfold start_after_countdown at h
      simp [hc] at h
      exact Or.inr h

/-- Witness for C8 at a concrete non-countdown state. -/
theorem C8_countdown_commit_checks_phase_witness :
    initialState.phase ≠ "countdown" ∧
      start_after_countdown initialState 0 = initialState :=
  ⟨by decide, (C8_countdown_commit_checks_phase initialState 0).1 (by decide)⟩

/-- C1: in non-infection mode a capture attempt against a target that is in a
    safe zone or already captured always fails and leaves the whole state
    unchanged. -/
theorem C1_safezone_and_captured_protected (s : GameState)
    (pred_id prey_id : String) (rssi : Int) (t : Nat) (prey_p : Player)
    (hq : dictLookup s.players prey_id = some prey_p)
    (hcond : prey_p.in_safe_zone = true ∨ prey_p.status = "captured")
    (hinf : (get_mode_config s).infection = false) :
    (process_capture s pred_id prey_id rssi t).2.1 = false ∧
      (process_capture s pred_id prey_id rssi t).1 = s := by
  cases hp : dictLookup s.players pred_id with
  | none => simp [process_capture, hp]
  | some pred =>
    simp only [process_capture, hp, hq]
    by_cases h1 : pred_id = prey_id
    · rw [if_pos h1]; exact ⟨rfl, rfl⟩
    · rw [if_neg h1]
      by_cases h2 : pred.role ≠ "pred"
      · rw [if_pos h2]; exact ⟨rfl, rfl⟩
      · rw [if_neg h2]
        by_cases h3 : prey_p.role ≠ "prey"
        · rw [if_pos h3]; exact ⟨rfl, rfl⟩
        · rw [if_neg h3]
          rcases hcond with hc | hc
          · by_cases h4 : prey_p.status = "captured" ∧ ¬(get_mode_config s).infection = true
            · rw [if_pos h4]; exact ⟨rfl, rfl⟩
            · rw [if_neg h4, if_pos ⟨hc, by simp [hinf]⟩]; exact ⟨rfl, rfl⟩
          · rw [if_pos ⟨hc, by simp [hinf]⟩]; exact ⟨rfl, rfl⟩

/-- Witness for C1: a concrete in-safe-zone prey cannot be captured. -/
theorem C1_safezone_and_captured_protected_witness :
    dictLookup witnessSafeState.players "P2P2" = some witnessSafePrey ∧
      (witnessSafePrey.in_safe_zone = true ∨ witnessSafePrey.status = "captured") ∧
      (get_mode_config witnessSafeState).infection = false ∧
      (process_capture witnessSafeState "P1P1" "P2P2" (-10) 1000).2.1 = false ∧
      (process_capture witnessSafeState "P1P1" "P2P2" (-10) 1000).1 = witnessSafeState := by
  refine ⟨by decide, Or.inl (by decide), by decide, ?_⟩
  exact C1_safezone_and_captured_protected witnessSafeState "P1P1" "P2P2" (-10) 1000
    witnessSafePrey (by decide) (Or.inl (by decide)) (by decide)

/-- C2: the capture signal threshold is inclusive.  With every other
    precondition satisfied, a signal exactly equal to the configured
    `capture_rssi` succeeds, and one unit weaker fails with the
    too-far rejection message. -/
theorem C2_capture_threshold_inclusive (s : GameState) (pred_id prey_id : String)
    (t : Nat) (pred prey_p : Player)
    (h1 : dictLookup s.players pred_id = some pred)
    (h2 : dictLookup s.players prey_id = some prey_p)
    (h3 : ¬pred_id = prey_id)
    (h4 : pred.role = "pred")
    (h5 : prey_p.role = "prey")
    (h6 : ¬(prey_p.status = "captured" ∧ ¬(get_mode_config s).infection = true))
    (h7 : ¬(prey_p.in_safe_zone = true ∧ ¬(get_mode_config s).infection = true))
    (h8 : s.phase = "running")
    (h9 : s.emergency = false)
    (h10 : ¬((get_mode_config s).photo_required = true ∧ prey_id ∉ pred.has_photo_of))
    (h11 : ∀ last, dictLookup s.capture_cooldowns pred_id = some last →
      ¬(t - last < CAPTURE_COOLDOWN)) :
    (process_capture s pred_id prey_id s.capture_rssi t).2.1 = true ∧
      (process_capture s pred_id prey_id (s.capture_rssi - 1) t).2.1 = false ∧
      (process_capture s pred_id prey_id (s.capture_rssi - 1) t).2.2 =
        "Too far (RSSI: " ++ toString (s.capture_rssi - 1) ++ ", need > " ++
          toString s.capture_rssi ++ ")" := by
  have hr1 : ¬pred.role ≠ "pred" := by simp [h4]
  have hr2 : ¬prey_p.role ≠ "prey" := by simp [h5]
  have hph : ¬s.phase ≠ "running" := by simp [h8]
  have hem : ¬s.emergency = true := by simp [h9]
  refine ⟨?_, ?_, ?_⟩
  · simp only [process_capture, h1, h2]
    rw [if_neg h3, if_neg hr1, if_neg hr2, if_neg h6, if_neg h7, if_neg hph, if_neg hem,
      if_neg (lt_irrefl s.capture_rssi), if_neg h10]
    cases hc : dictLookup s.capture_cooldowns pred_id with
    | none => exact capture_commit_success ..
    | some last =>
      dsimp only
      rw [if_neg (h11 last hc)]
      exact capture_commit_success ..
  · simp only [process_capture, h1, h2]
    rw [if_neg h3, if_neg hr1, if_neg hr2, if_neg h6, if_neg h7, if_neg hph, if_neg hem,
      if_pos (by omega : s.capture_rssi - 1 < s.capture_rssi)]
  · simp only [process_capture, h1, h2]
    rw [if_neg h3, if_neg hr1, if_neg hr2, if_neg h6, if_neg h7, if_neg hph, if_neg hem,
      if_pos (by omega : s.capture_rssi - 1 < s.capture_rssi)]
    rfl

/-- Witness for C2 on a concrete running game with threshold -70:
    -70 succeeds, -71 is rejected as too far. -/
theorem C2_capture_threshold_inclusive_witness :
    witnessRunState.capture_rssi = -70 ∧
      (process_capture witnessRunState "P1P1" "P2P2" witnessRunState.capture_rssi 1000).2.1 = true ∧
      (process_capture witnessRunState "P1P1" "P2P2" (witnessRunState.capture_rssi - 1) 1000).2.1 = false := by
  have h := C2_capture_threshold_inclusive witnessRunState "P1P1" "P2P2" 1000
    witnessPred witnessFreePrey (by decide) (by decide) (by decide) (by decide)
    (by decide) (by decide) (by decide) (by decide) (by decide) (by decide)
    (by intro last hlast; simp [witnessRunState, initialState, dictLookup] at hlast)
  exact ⟨by decide, h.1, h.2.1⟩

/-- C5 counterexample: the claim includes moderator force-role among the
    operations preserving the captured-implies-prey invariant, but
    `api_force_role` changes the role without touching the status: forcing a
    captured prey to role `pred` yields a player with status `captured` and
    role `pred`, violating the invariant. -/
theorem C5_force_role_breaks_invariant :
    StatusInv witnessCapturedState ∧
      (∃ p, dictLookup (api_force_role witnessCapturedState "P2P2" "pred").1.players "P2P2" = some p ∧
        p.status = "captured" ∧ p.role = "pred") ∧
      ¬StatusInv (api_force_role witnessCapturedState "P2P2" "pred").1 := by
  refine ⟨?_, ⟨_, rfl, rfl, rfl⟩, ?_⟩
  · intro k p hk hs
    simp only [witnessCapturedState, initialState, dictLookup] at hk
    split at hk
    · cases hk
      exact absurd hs (by decide)
    · split at hk
      · cases hk
        rfl
      · cases hk
  · intro hInv
    exact absurd (hInv "P2P2" _ rfl rfl) (by decide)

/-- C5 (amended): the captured-implies-prey invariant is preserved by capture,
    escape, safe-zone update, moderator release and game reset — but not by
    moderator force-role, which the counterexample excludes from the claim. -/
theorem C5_invariant_preserved_amended (s : GameState) (h : StatusInv s) :
    (∀ pid qid rssi t, StatusInv (process_capture s pid qid rssi t).1) ∧
      (∀ pid b, StatusInv (process_escape s pid b).1) ∧
      (∀ d br, StatusInv (update_safe_zone s d br)) ∧
      (∀ d, StatusInv (api_release_player s d)) ∧
      StatusInv (api_reset_game s) :=
  ⟨fun pid qid rssi t => StatusInv_process_capture pid qid rssi t h,
   fun pid b => StatusInv_process_escape pid b h,
   fun d br => StatusInv_update_safe_zone d br h,
   fun d => StatusInv_api_release_player d h,
   StatusInv_api_reset_game s⟩

/-- Witness for C5 at a concrete invariant-satisfying state. -/
theorem C5_invariant_preserved_amended_witness :
    StatusInv witnessRunState ∧
      StatusInv (process_capture witnessRunState "P1P1" "P2P2" (-60) 1000).1 ∧
      StatusInv (api_reset_game witnessRunState) := by
  have h0 : StatusInv witnessRunState := by
    intro k p hk hs
    simp only [witnessRunState, initialState, dictLookup] at hk
    split at hk
    · cases hk
      exact absurd hs (by decide)
    · split at hk
      · cases hk
        exact absurd hs (by decide)
      · cases hk
  have h := C5_invariant_preserved_amended witnessRunState h0
  exact ⟨h0, h.1 "P1P1" "P2P2" (-60) 1000, h.2.2.2.2⟩

theorem fieldOf_notify_player {α : Type} (f : Player → α)
    (hf : ∀ n p, f (mapNotif n p) = f p) (s : GameState) (d m ty k : String) :
    fieldOf f (notify_player s d m ty) k = fieldOf f s k := by
  unfold fieldOf
  by_cases hk : k = d
  · subst hk
    cases hd : dictLookup s.players k with
    | none => rw [notify_player_players]; simp [hd]
    | some p =>
      rw [lookup_notify_player_self _ _ _ _ _ hd]
      simp [hd, hf]
  · rw [lookup_notify_player_ne _ _ _ _ _ hk]

theorem fieldOf_notify_all {α : Type} (f : Player → α)
    (hf : ∀ n p, f (mapNotif n p) = f p) (s : GameState) (m ty k : String) :
    fieldOf f (notify_all_players s m ty) k = fieldOf f s k := by
  unfold fieldOf
  rw [lookup_notify_all]
  cases hq : dictLookup s.players k <;> simp [hf]

theorem fieldOf_log_event {α : Type} (f : Player → α) (s : GameState)
    (e : String) (b : Bool) (k : String) :
    fieldOf f (log_event s e b) k = fieldOf f s k := by
  unfold fieldOf
  rw [log_event_players]

theorem fieldOf_infection_end_step {α : Type} (f : Player → α)
    (hf : ∀ n p, f (mapNotif n p) = f p) (s : GameState) (t : Nat) (k : String) :
    fieldOf f (infection_end_step s t) k = fieldOf f s k := by
  unfold infection_end_step
  dsimp only
  split
  · calc fieldOf f (notify_all_players (log_event { s with phase := "ended", end_time := some t } "game_auto_end" true) "🦠 ALL PREY INFECTED!" "success") k
        = fieldOf f (log_event { s with phase := "ended", end_time := some t } "game_auto_end" true) k := fieldOf_notify_all f hf ..
      _ = fieldOf f s k := fieldOf_log_event ..
  · rfl

theorem infection_end_step_forces (s : GameState) (t : Nat) :
    countPrey (infection_end_step s t) = 0 →
      (infection_end_step s t).phase = "ended" ∧
        "game_ended" ∈ (infection_end_step s t).emits := by
  unfold infection_end_step
  dsimp only
  split
  · intro _
    refine ⟨rfl, ?_⟩
    simp [notify_all_players, log_event]
  · intro h0
    rename_i hcond
    exact absurd h0 hcond

theorem process_capture_reaches_commit {s : GameState} {pid qid : String}
    {rssi : Int} {t : Nat} {s' : GameState} {msg : String}
    (h : process_capture s pid qid rssi t = (s', true, msg)) :
    ∃ pred prey_p, dictLookup s.players pid = some pred ∧
      dictLookup s.players qid = some prey_p ∧ prey_p.role = "prey" ∧
      ¬pid = qid ∧
      (capture_commit s (get_mode_config s) pid qid pred prey_p rssi t).1 = s' := by
  unfold process_capture at h
  cases hp : dictLookup s.players pid with
  | none => rw [hp] at h; simp at h
  | some pred =>
    cases hq : dictLookup s.players qid with
    | none => rw [hp, hq] at h; simp at h
    | some prey_p =>
      rw [hp, hq] at h
      dsimp only at h
      by_cases e1 : pid = qid
      · rw [if_pos e1] at h; simp at h
      · rw [if_neg e1] at h
        by_cases e2 : pred.role ≠ "pred"
        · rw [if_pos e2] at h; simp at h
        · rw [if_neg e2] at h
          by_cases e3 : prey_p.role ≠ "prey"
          · rw [if_pos e3] at h; simp at h
          · rw [if_neg e3] at h
            by_cases e4 : prey_p.status = "captured" ∧ ¬(get_mode_config s).infection = true
            · rw [if_pos e4] at h; simp at h
            · rw [if_neg e4] at h
              by_cases e5 : prey_p.in_safe_zone = true ∧ ¬(get_mode_config s).infection = true
              · rw [if_pos e5] at h; simp at h
              · rw [if_neg e5] at h
                by_cases e6 : s.phase ≠ "running"
                · rw [if_pos e6] at h; simp at h
                · rw [if_neg e6] at h
                  by_cases e7 : s.emergency = true
                  · rw [if_pos e7] at h; simp at h
                  · rw [if_neg e7] at h
                    by_cases e8 : rssi < s.capture_rssi
                    · rw [if_pos e8] at h; simp at h
                    · rw [if_neg e8] at h
                      by_cases e9 : (get_mode_config s).photo_required = true ∧ qid ∉ pred.has_photo_of
                      · rw [if_pos e9] at h; simp at h
                      · rw [if_neg e9] at h
                        refine ⟨pred, prey_p, rfl, rfl, not_ne_iff.mp e3, e1, ?_⟩
                        cases hc : dictLookup s.capture_cooldowns pid with
                        | none =>
                          rw [hc] at h
                          dsimp only at h
                          rw [h]
                        | some last =>
                          rw [hc] at h
                          dsimp only at h
                          by_cases e10 : t - last < CAPTURE_COOLDOWN
                          · rw [if_pos e10] at h; simp at h
                          · rw [if_neg e10] at h
                            rw [h]

theorem fieldOf_set_emits {α : Type} (f : Player → α) (X : GameState)
    (e : List String) (k : String) :
    fieldOf f { X with emits := e } k = fieldOf f X k := rfl

theorem capture_commit_infection_effects (s : GameState) (mc : ModeConfig)
    (pid qid : String) (pred prey_p : Player) (rssi : Int) (t : Nat)
    (hinf : mc.infection = true) (hne : ¬pid = qid) :
    fieldOf Player.role (capture_commit s mc pid qid pred prey_p rssi t).1 qid = some "pred" ∧
      fieldOf Player.status (capture_commit s mc pid qid pred prey_p rssi t).1 qid = some "active" ∧
      fieldOf Player.times_captured (capture_commit s mc pid qid pred prey_p rssi t).1 qid = some (prey_p.times_captured + 1) ∧
      fieldOf Player.captures (capture_commit s mc pid qid pred prey_p rssi t).1 pid = some (pred.captures + 1) ∧
      fieldOf Player.infections (capture_commit s mc pid qid pred prey_p rssi t).1 pid = some (pred.infections + 1) ∧
      (countPrey (capture_commit s mc pid qid pred prey_p rssi t).1 = 0 →
        (capture_commit s mc pid qid pred prey_p rssi t).1.phase = "ended" ∧
          "game_ended" ∈ (capture_commit s mc pid qid pred prey_p rssi t).1.emits) := by
  have hq_ne_pid : qid ≠ pid := fun hh => hne hh.symm
  unfold capture_commit
  simp only [hinf, eq_self_iff_true, if_true]
  refine ⟨?_, ?_, ?_, ?_, ?_, infection_end_step_forces _ _⟩
  · rw [fieldOf_infection_end_step Player.role (fun n p => rfl), fieldOf_set_emits,
      fieldOf_notify_all Player.role (fun n p => rfl), fieldOf_notify_player Player.role (fun n p => rfl),
      fieldOf_notify_player Player.role (fun n p => rfl), fieldOf_log_event]
    unfold fieldOf
    dsimp only
    rw [dictLookup_dictInsert_ne _ _ _ _ hq_ne_pid, dictLookup_dictInsert_self]
    rfl
  · rw [fieldOf_infection_end_step Player.status (fun n p => rfl), fieldOf_set_emits,
      fieldOf_notify_all Player.status (fun n p => rfl), fieldOf_notify_player Player.status (fun n p => rfl),
      fieldOf_notify_player Player.status (fun n p => rfl), fieldOf_log_event]
    unfold fieldOf
    dsimp only
    rw [dictLookup_dictInsert_ne _ _ _ _ hq_ne_pid, dictLookup_dictInsert_self]
    rfl
  · rw [fieldOf_infection_end_step Player.times_captured (fun n p => rfl), fieldOf_set_emits,
      fieldOf_notify_all Player.times_captured (fun n p => rfl), fieldOf_notify_player Player.times_captured (fun n p => rfl),
      fieldOf_notify_player Player.times_captured (fun n p => rfl), fieldOf_log_event]
    unfold fieldOf
    dsimp only
    rw [dictLookup_dictInsert_ne _ _ _ _ hq_ne_pid, dictLookup_dictInsert_self]
    rfl
  · rw [fieldOf_infection_end_step Player.captures (fun n p => rfl), fieldOf_set_emits,
      fieldOf_notify_all Player.captures (fun n p => rfl), fieldOf_notify_player Player.captures (fun n p => rfl),
      fieldOf_notify_player Player.captures (fun n p => rfl), fieldOf_log_event]
    unfold fieldOf
    dsimp only
    rw [dictLookup_dictInsert_self]
    rfl
  · rw [fieldOf_infection_end_step Player.infections (fun n p => rfl), fieldOf_set_emits,
      fieldOf_notify_all Player.infections (fun n p => rfl), fieldOf_notify_player Player.infections (fun n p => rfl),
      fieldOf_notify_player Player.infections (fun n p => rfl), fieldOf_log_event]
    unfold fieldOf
    dsimp only
    rw [dictLookup_dictInsert_self]
    rfl

/-- C3: a successful infection-mode capture converts the target's role to
    predator, resets the target's status to active (never `captured`),
    increments the target's times-captured and the predator's captures and
    infections counters, and — if no prey remain afterwards — forces the game
    phase to `ended` with the final results broadcast. -/
theorem C3_infection_capture_converts (s : GameState) (pid qid : String)
    (rssi : Int) (t : Nat) (s' : GameState) (msg : String)
    (hinf : (get_mode_config s).infection = true)
    (h : process_capture s pid qid rssi t = (s', true, msg)) :
    ∃ pred prey_p,
      dictLookup s.players pid = some pred ∧ dictLookup s.players qid = some prey_p ∧
        fieldOf Player.role s' qid = some "pred" ∧
        fieldOf Player.status s' qid = some "active" ∧
        fieldOf Player.status s' qid ≠ some "captured" ∧
        fieldOf Player.times_captured s' qid = some (prey_p.times_captured + 1) ∧
        fieldOf Player.captures s' pid = some (pred.captures + 1) ∧
        fieldOf Player.infections s' pid = some (pred.infections + 1) ∧
        (countPrey s' = 0 → s'.phase = "ended" ∧ "game_ended" ∈ s'.emits) := by
  obtain ⟨pred, prey_p, hp, hq, hrole, hne, hcc⟩ := process_capture_reaches_commit h
  subst hcc
  obtain ⟨f1, f2, f3, f4, f5, f6⟩ :=
    capture_commit_infection_effects s (get_mode_config s) pid qid pred prey_p rssi t hinf hne
  refine ⟨pred, prey_p, hp, hq, f1, f2, ?_, f3, f4, f5, f6⟩
  rw [f2]
  simp

/-- Witness for C3: the infection-mode two-player game where the predator
    infects the last prey. -/
theorem C3_infection_capture_converts_witness :
    (get_mode_config witnessInfState).infection = true ∧
      process_capture witnessInfState "P1P1" "P2P2" (-60) 1000 =
        ((process_capture witnessInfState "P1P1" "P2P2" (-60) 1000).1, true,
          (process_capture witnessInfState "P1P1" "P2P2" (-60) 1000).2.2) ∧
      (∃ pred prey_p,
        dictLookup witnessInfState.players "P1P1" = some pred ∧
          dictLookup witnessInfState.players "P2P2" = some prey_p ∧
          fieldOf Player.role (process_capture witnessInfState "P1P1" "P2P2" (-60) 1000).1 "P2P2" = some "pred" ∧
          fieldOf Player.status (process_capture witnessInfState "P1P1" "P2P2" (-60) 1000).1 "P2P2" = some "active" ∧
          fieldOf Player.status (process_capture witnessInfState "P1P1" "P2P2" (-60) 1000).1 "P2P2" ≠ some "captured" ∧
          fieldOf Player.times_captured (process_capture witnessInfState "P1P1" "P2P2" (-60) 1000).1 "P2P2" = some (prey_p.times_captured + 1) ∧
          fieldOf Player.captures (process_capture witnessInfState "P1P1" "P2P2" (-60) 1000).1 "P1P1" = some (pred.captures + 1) ∧
          fieldOf Player.infections (process_capture witnessInfState "P1P1" "P2P2" (-60) 1000).1 "P1P1" = some (pred.infections + 1) ∧
          (countPrey (process_capture witnessInfState "P1P1" "P2P2" (-60) 1000).1 = 0 →
            (process_capture witnessInfState "P1P1" "P2P2" (-60) 1000).1.phase = "ended" ∧
              "game_ended" ∈ (process_capture witnessInfState "P1P1" "P2P2" (-60) 1000).1.emits)) :=
  ⟨by decide, by decide,
    C3_infection_capture_converts witnessInfState "P1P1" "P2P2" (-60) 1000
      (process_capture witnessInfState "P1P1" "P2P2" (-60) 1000).1
      (process_capture witnessInfState "P1P1" "P2P2" (-60) 1000).2.2
      (by decide) (by decide)⟩

theorem notify_player_mode (s : GameState) (d m ty : String) :
    (notify_player s d m ty).mode = s.mode := by
  unfold notify_player
  cases dictLookup s.players d <;> rfl

theorem log_event_mode (s : GameState) (e : String) (b : Bool) :
    (log_event s e b).mode = s.mode := rfl

theorem getLast_append_singleton {α : Type} (l : List α) (a : α) :
    (l ++ [a]).getLast? = some a := by
  induction l with
  | nil => rfl
  | cons x xs ih =>
    cases xs with
    | nil => rfl
    | cons y ys =>
      rw [show (x :: y :: ys) ++ [a] = x :: ((y :: ys) ++ [a]) from rfl,
        show x :: ((y :: ys) ++ [a]) = x :: y :: (ys ++ [a]) from rfl,
        List.getLast?_cons_cons]
      exact ih

theorem pushNotif_getLast (q : List Notif) (n : Notif) :
    (pushNotif q n).getLast? = some n := by
  unfold pushNotif
  dsimp only
  split
  · cases q with
    | nil =>
      rename_i hlen
      simp at hlen
    | cons x xs =>
      rw [List.cons_append]
      dsimp only [List.tail_cons]
      exact getLast_append_singleton xs n
  · exact getLast_append_singleton q n

theorem fieldOf_award_achievement {α : Type} (f : Player → α)
    (hf : ∀ n p, f (mapNotif n p) = f p) (s : GameState) (d key k : String) :
    fieldOf f (award_achievement s d key) k = fieldOf f s k := by
  unfold award_achievement
  dsimp only
  split
  · rfl
  · rw [fieldOf_log_event]
    split
    · rw [fieldOf_notify_player f hf]
      rfl
    · rfl

theorem fieldOf_check_achievements {α : Type} (f : Player → α)
    (hf : ∀ n p, f (mapNotif n p) = f p) (s : GameState) (d k : String) :
    fieldOf f (check_achievements s d) k = fieldOf f s k := by
  unfold check_achievements
  cases hd : dictLookup s.players d with
  | none => rfl
  | some q =>
    dsimp only
    have hA : ∀ (s0 : GameState) (key : String),
        fieldOf f (award_achievement s0 d key) k = fieldOf f s0 k :=
      fun s0 key => fieldOf_award_achievement f hf s0 d key k
    simp only [apply_ite (fun s0 : GameState => fieldOf f s0 k), hA, ite_self]

theorem fieldOf_process_escape {α : Type} (f : Player → α)
    (hf : ∀ n p, f (mapNotif n p) = f p)
    (hesc : ∀ p : Player, f { p with status := "active", escapes := p.escapes + 1, captured_by := none, captured_by_device := none } = f p)
    (s : GameState) (pid : String) (b : Option String) (k : String) :
    fieldOf f (process_escape s pid b).1 k = fieldOf f s k := by
  unfold process_escape
  dsimp only
  split
  · rfl
  · cases hq : dictLookup s.players pid with
    | none => rfl
    | some q =>
      dsimp only
      split
      · rfl
      · rw [fieldOf_set_emits, fieldOf_check_achievements f hf]
        have hcommon :
            fieldOf f (notify_player (log_event { s with players := dictInsert s.players pid { q with status := "active", escapes := q.escapes + 1, captured_by := none, captured_by_device := none } } "escape" true) pid "You ESCAPED via safe zone!" "success") k = fieldOf f s k → True := fun _ => trivial
        clear hcommon
        split
        · split
          · rw [fieldOf_notify_player f hf, fieldOf_notify_player f hf, fieldOf_log_event]
            unfold fieldOf
            dsimp only
            by_cases hk : k = pid
            · subst hk
              rw [dictLookup_dictInsert_self, hq]
              simp [hesc]
            · rw [dictLookup_dictInsert_ne _ _ _ _ hk]
          · rw [fieldOf_notify_player f hf, fieldOf_log_event]
            unfold fieldOf
            dsimp only
            by_cases hk : k = pid
            · subst hk
              rw [dictLookup_dictInsert_self, hq]
              simp [hesc]
            · rw [dictLookup_dictInsert_ne _ _ _ _ hk]
        · rw [fieldOf_notify_player f hf, fieldOf_log_event]
          unfold fieldOf
          dsimp only
          by_cases hk : k = pid
          · subst hk
            rw [dictLookup_dictInsert_self, hq]
            simp [hesc]
          · rw [dictLookup_dictInsert_ne _ _ _ _ hk]

theorem process_escape_effects (s : GameState) (pid : String) (b : Option String)
    (q : Player) (hq : dictLookup s.players pid = some q)
    (hinf : (get_mode_config s).infection = false)
    (hst : q.status = "captured") :
    fieldOf Player.status (process_escape s pid b).1 pid = some "active" ∧
      fieldOf Player.escapes (process_escape s pid b).1 pid = some (q.escapes + 1) := by
  unfold process_escape
  dsimp only
  rw [if_neg (by simp [hinf]), hq]
  dsimp only
  rw [if_neg (by simp [hst])]
  constructor
  · rw [fieldOf_set_emits, fieldOf_check_achievements Player.status (fun n p => rfl)]
    split
    · split
      · rw [fieldOf_notify_player Player.status (fun n p => rfl),
          fieldOf_notify_player Player.status (fun n p => rfl), fieldOf_log_event]
        unfold fieldOf
        dsimp only
        rw [dictLookup_dictInsert_self]
        rfl
      · rw [fieldOf_notify_player Player.status (fun n p => rfl), fieldOf_log_event]
        unfold fieldOf
        dsimp only
        rw [dictLookup_dictInsert_self]
        rfl
    · rw [fieldOf_notify_player Player.status (fun n p => rfl), fieldOf_log_event]
      unfold fieldOf
      dsimp only
      rw [dictLookup_dictInsert_self]
      rfl
  · rw [fieldOf_set_emits, fieldOf_check_achievements Player.escapes (fun n p => rfl)]
    split
    · split
      · rw [fieldOf_notify_player Player.escapes (fun n p => rfl),
          fieldOf_notify_player Player.escapes (fun n p => rfl), fieldOf_log_event]
        unfold fieldOf
        dsimp only
        rw [dictLookup_dictInsert_self]
        rfl
      · rw [fieldOf_notify_player Player.escapes (fun n p => rfl), fieldOf_log_event]
        unfold fieldOf
        dsimp only
        rw [dictLookup_dictInsert_self]
        rfl
    · rw [fieldOf_notify_player Player.escapes (fun n p => rfl), fieldOf_log_event]
      unfold fieldOf
      dsimp only
      rw [dictLookup_dictInsert_self]
      rfl

/-- C6 counterexample: the claim's qualification rule ("exists, active, signal
    meets or exceeds the threshold") is not exactly what the scan implements:
    the scan's running-best starts at the sentinel -999, so a reading that
    qualifies per the rule but sits at or below -999 never registers.  With a
    beacon threshold of -1500 (settable through the unvalidated beacon-update
    endpoint), the reading ("SZ99", -1200) qualifies per the claim yet the
    player does not enter the safe zone. -/
theorem C6_sentinel_counterexample :
    beaconQualifiesSpec witnessDeepState "SZ99" (-1200) = true ∧
      (∃ p, dictLookup witnessDeepState.players "P2P2" = some p ∧ p.in_safe_zone = false) ∧
      (scanResult witnessDeepState [("SZ99", -1200)]).2.1 = false ∧
      fieldOf Player.in_safe_zone (update_safe_zone witnessDeepState "P2P2" [("SZ99", -1200)]) "P2P2" = some false :=
  ⟨rfl, ⟨witnessFreePrey, rfl, rfl⟩, rfl, rfl⟩

/-- C6 (amended): safe-zone resolution.  A reading registers iff its beacon
    exists, is active, its signal meets or exceeds the beacon threshold, AND
    the signal exceeds the scan sentinel -999 (the amendment).  On the
    unsafe-to-safe transition the flag is set and the recorded beacon is a
    registering reading of maximal signal, and a captured player undergoes the
    automatic escape (which per the escape rules applies in non-infection
    mode); on the safe-to-unsafe transition the flag and beacon are cleared
    and a warning notification is queued; when the safety status is unchanged
    the player record is untouched and nothing is emitted. -/
theorem C6_safe_zone_resolution (s : GameState) (d : String)
    (l : List (String × Int)) (p : Player)
    (hp : dictLookup s.players d = some p) :
    ((scanResult s l).2.1 = true ↔
      ∃ br ∈ l, beaconQualifiesSpec s br.1 br.2 = true ∧ br.2 > -999) ∧
      (p.in_safe_zone = false → (scanResult s l).2.1 = true →
        ∃ nb, (scanResult s l).2.2.1 = some nb ∧
          (nb, (scanResult s l).2.2.2) ∈ l ∧
          beaconQualifiesSpec s nb ((scanResult s l).2.2.2) = true ∧
          (∀ br ∈ l, beaconQualifiesSpec s br.1 br.2 = true →
            br.2 ≤ (scanResult s l).2.2.2) ∧
          fieldOf Player.in_safe_zone (update_safe_zone s d l) d = some true ∧
          fieldOf Player.safe_zone_beacon (update_safe_zone s d l) d = some (some nb) ∧
          (p.status = "captured" → (get_mode_config s).infection = false →
            fieldOf Player.status (update_safe_zone s d l) d = some "active" ∧
              fieldOf Player.escapes (update_safe_zone s d l) d = some (p.escapes + 1)) ∧
          (p.status ≠ "captured" →
            fieldOf Player.status (update_safe_zone s d l) d = some p.status)) ∧
      (p.in_safe_zone = true → (scanResult s l).2.1 = false →
        fieldOf Player.in_safe_zone (update_safe_zone s d l) d = some false ∧
          fieldOf Player.safe_zone_beacon (update_safe_zone s d l) d = some none ∧
          (∃ q, dictLookup (update_safe_zone s d l).players d = some q ∧
            q.notifications.getLast? =
              some (Notif.mk "Left safe zone - you can be captured!" "warning"))) ∧
      ((scanResult s l).2.1 = p.in_safe_zone →
        dictLookup (update_safe_zone s d l).players d = some p ∧
          (update_safe_zone s d l).emits = s.emits) := by
  obtain ⟨hA0, hMono0, hMax0, hC0⟩ :=
    scan_aux s.beacons l s false none (-999) rfl (by simp)
  have hA : (scanResult s l).2.1 = true ↔
      false = true ∨ ∃ br ∈ l, qualifiesIn s.beacons br.1 br.2 = true ∧ br.2 > -999 := hA0
  have hMax : ∀ br ∈ l, qualifiesIn s.beacons br.1 br.2 = true →
      br.2 ≤ (scanResult s l).2.2.2 := hMax0
  have hC : (scanResult s l).2.1 = true →
      ∃ nbv, (scanResult s l).2.2.1 = some nbv ∧
        (((nbv, (scanResult s l).2.2.2) ∈ l ∧
           qualifiesIn s.beacons nbv ((scanResult s l).2.2.2) = true) ∨
         (false = true ∧ (none : Option String) = some nbv ∧
           (scanResult s l).2.2.2 = -999)) := hC0
  refine ⟨?_, ?_, ?_, ?_⟩
  · exact ⟨fun h => ((hA.mp h).resolve_left (by simp)), fun h => hA.mpr (Or.inr h)⟩
  · intro hwas hsafe
    obtain ⟨nb, hnb, hcase⟩ := hC hsafe
    have hmem : (nb, (scanResult s l).2.2.2) ∈ l ∧
        qualifiesIn s.beacons nb ((scanResult s l).2.2.2) = true := by
      rcases hcase with hgood | ⟨hsf, _, _⟩
      · exact hgood
      · cases hsf
    refine ⟨nb, hnb, hmem.1, hmem.2, fun br hm hq => hMax br hm hq, ?_⟩
    have hins : dictLookup (({ (scanResult s l).1 with players := dictInsert (scanResult s l).1.players d { p with in_safe_zone := true, safe_zone_beacon := some nb, last_location_hint := "Near " ++ (match dictLookup (scanResult s l).1.beacons nb with | some b => b.name | none => nb) } } : GameState)).players d = some { p with in_safe_zone := true, safe_zone_beacon := some nb, last_location_hint := "Near " ++ (match dictLookup (scanResult s l).1.beacons nb with | some b => b.name | none => nb) } := by
      dsimp only
      exact dictLookup_dictInsert_self ..
    have hlk : dictLookup (notify_player (log_event ({ (scanResult s l).1 with players := dictInsert (scanResult s l).1.players d { p with in_safe_zone := true, safe_zone_beacon := some nb, last_location_hint := "Near " ++ (match dictLookup (scanResult s l).1.beacons nb with | some b => b.name | none => nb) } } : GameState) "enter_safezone" true) d ("Entered safe zone: " ++ (match dictLookup (scanResult s l).1.beacons nb with | some b => b.name | none => nb)) "success").players d = some (mapNotif (Notif.mk ("Entered safe zone: " ++ (match dictLookup (scanResult s l).1.beacons nb with | some b => b.name | none => nb)) "success") { p with in_safe_zone := true, safe_zone_beacon := some nb, last_location_hint := "Near " ++ (match dictLookup (scanResult s l).1.beacons nb with | some b => b.name | none => nb) }) :=
      lookup_notify_player_self _ _ _ _ _ (by rw [log_event_players]; exact hins)
    by_cases hst : p.status = "captured"
    · have hABS : update_safe_zone s d l = (process_escape (notify_player (log_event ({ (scanResult s l).1 with players := dictInsert (scanResult s l).1.players d { p with in_safe_zone := true, safe_zone_beacon := some nb, last_location_hint := "Near " ++ (match dictLookup (scanResult s l).1.beacons nb with | some b => b.name | none => nb) } } : GameState) "enter_safezone" true) d ("Entered safe zone: " ++ (match dictLookup (scanResult s l).1.beacons nb with | some b => b.name | none => nb)) "success") d (some nb)).1 := by
        unfold update_safe_zone
        rw [hp]
        dsimp only
        rw [if_pos ⟨hsafe, by simp [hwas]⟩, hnb]
        dsimp only
        rw [if_pos hst]
      refine ⟨?_, ?_, ?_, fun hst2 => absurd hst hst2⟩
      · rw [hABS, fieldOf_process_escape Player.in_safe_zone (fun n p => rfl) (fun p => rfl)]
        unfold fieldOf
        rw [hlk]
        rfl
      · rw [hABS, fieldOf_process_escape Player.safe_zone_beacon (fun n p => rfl) (fun p => rfl)]
        unfold fieldOf
        rw [hlk]
        rfl
      · intro _ hinf
        have hmode : (get_mode_config (notify_player (log_event ({ (scanResult s l).1 with players := dictInsert (scanResult s l).1.players d { p with in_safe_zone := true, safe_zone_beacon := some nb, last_location_hint := "Near " ++ (match dictLookup (scanResult s l).1.beacons nb with | some b => b.name | none => nb) } } : GameState) "enter_safezone" true) d ("Entered safe zone: " ++ (match dictLookup (scanResult s l).1.beacons nb with | some b => b.name | none => nb)) "success")).infection = false := by
          unfold get_mode_config
          rw [notify_player_mode, log_event_mode]
          have hm2 : (scanResult s l).1.mode = s.mode := scan_foldl_mode ..
          dsimp only
          rw [hm2]
          exact hinf
        have heff := process_escape_effects _ d (some nb) _ hlk hmode (by exact hst)
        rw [hABS]
        exact ⟨heff.1, heff.2⟩
    · have hABS : update_safe_zone s d l = notify_player (log_event ({ (scanResult s l).1 with players := dictInsert (scanResult s l).1.players d { p with in_safe_zone := true, safe_zone_beacon := some nb, last_location_hint := "Near " ++ (match dictLookup (scanResult s l).1.beacons nb with | some b => b.name | none => nb) } } : GameState) "enter_safezone" true) d ("Entered safe zone: " ++ (match dictLookup (scanResult s l).1.beacons nb with | some b => b.name | none => nb)) "success" := by
        unfold update_safe_zone
        rw [hp]
        dsimp only
        rw [if_pos ⟨hsafe, by simp [hwas]⟩, hnb]
        dsimp only
        rw [if_neg hst]
      refine ⟨?_, ?_, fun hst2 _ => absurd hst2 hst, fun _ => ?_⟩
      · rw [hABS]
        unfold fieldOf
        rw [hlk]
        rfl
      · rw [hABS]
        unfold fieldOf
        rw [hlk]
        rfl
      · rw [hABS]
        unfold fieldOf
        rw [hlk]
        rfl
  · intro hwas hsafe
    have hins : dictLookup (({ (scanResult s l).1 with players := dictInsert (scanResult s l).1.players d { p with in_safe_zone := false, safe_zone_beacon := none } } : GameState)).players d = some { p with in_safe_zone := false, safe_zone_beacon := none } := by
      dsimp only
      exact dictLookup_dictInsert_self ..
    have hlk : dictLookup (notify_player (log_event ({ (scanResult s l).1 with players := dictInsert (scanResult s l).1.players d { p with in_safe_zone := false, safe_zone_beacon := none } } : GameState) "leave_safezone" true) d "Left safe zone - you can be captured!" "warning").players d = some (mapNotif (Notif.mk "Left safe zone - you can be captured!" "warning") { p with in_safe_zone := false, safe_zone_beacon := none }) :=
      lookup_notify_player_self _ _ _ _ _ (by rw [log_event_players]; exact hins)
    have hABS : update_safe_zone s d l = notify_player (log_event ({ (scanResult s l).1 with players := dictInsert (scanResult s l).1.players d { p with in_safe_zone := false, safe_zone_beacon := none } } : GameState) "leave_safezone" true) d "Left safe zone - you can be captured!" "warning" := by
      unfold update_safe_zone
      rw [hp]
      dsimp only
      rw [if_neg (by intro hh; rw [hsafe] at hh; cases hh.1), if_pos ⟨by simp [hsafe], hwas⟩]
    refine ⟨?_, ?_, ?_⟩
    · rw [hABS]
      unfold fieldOf
      rw [hlk]
      rfl
    · rw [hABS]
      unfold fieldOf
      rw [hlk]
      rfl
    · rw [hABS]
      refine ⟨_, hlk, ?_⟩
      exact pushNotif_getLast ..
  · intro heq
    have h1 : ¬((scanResult s l).2.1 = true ∧ ¬p.in_safe_zone = true) := by
      rw [heq]
      intro hh
      exact hh.2 hh.1
    have h2 : ¬(¬(scanResult s l).2.1 = true ∧ p.in_safe_zone = true) := by
      rw [heq]
      intro hh
      exact hh.1 hh.2
    unfold update_safe_zone
    rw [hp]
    dsimp only
    rw [if_neg h1, if_neg h2]
    constructor
    · rw [show (scanResult s l).1.players = s.players from scan_foldl_players ..]
      exact hp
    · exact scan_foldl_emits ..

/-- Witness for C6 at a concrete beacon state: the registering-iff clause at a
    qualifying -70 reading against an active -75 beacon. -/
theorem C6_safe_zone_resolution_witness :
    dictLookup witnessBeaconState.players "P2P2" = some witnessFreePrey ∧
      ((scanResult witnessBeaconState [("SZ01", -70)]).2.1 = true ↔
        ∃ br ∈ [(("SZ01" : String), (-70 : Int))],
          beaconQualifiesSpec witnessBeaconState br.1 br.2 = true ∧ br.2 > -999) :=
  ⟨rfl, (C6_safe_zone_resolution witnessBeaconState "P2P2" [("SZ01", -70)]
    witnessFreePrey rfl).1⟩

/-- C4 (evaluation at the failing input): with a 70-point bounty on the prey
    and capture base value 100, a successful standard capture deletes the
    bounty map entry, but the predator's stored points rise only by the bounty
    (to 70, not base+bounty), and the leaderboard's point recomputation
    (`calculate_points`) returns 100 — the capture base alone — erasing the
    bounty instead of the claimed 100 + 70. -/
theorem C4_bounty_erased_by_recompute :
    (process_capture witnessBountyState "P1P1" "P2P2" (-60) 1000).2.1 = true ∧
      dictLookup (process_capture witnessBountyState "P1P1" "P2P2" (-60) 1000).1.bounties "P2P2" = none ∧
      (dictLookup (process_capture witnessBountyState "P1P1" "P2P2" (-60) 1000).1.players "P1P1").map
        (fun p => (p.points, calculate_points (process_capture witnessBountyState "P1P1" "P2P2" (-60) 1000).1 p)) =
        some (70, 100) ∧
      (get_mode_config witnessBountyState).capture_points = 100 ∧
      (100 : Int) < 100 + 70 :=
  ⟨rfl, rfl, rfl, rfl, by decide⟩

theorem get_player_emergency (s : GameState) (d : String) (t : Nat) :
    (get_player s d t).1.emergency = s.emergency := by
  unfold get_player
  cases h : dictLookup s.players d with
  | some p => rfl
  | none =>
    dsimp only
    split
    · rfl
    · rfl

theorem keysOf_map {α β : Type} (f : α → β) (m : List (String × α)) :
    (m.map (fun kp => (kp.1, f kp.2))).map Prod.fst = m.map Prod.fst := by
  induction m with
  | nil => rfl
  | cons kv rest ih => simp [ih]

/-- C7: emergency protocol.  `trigger_emergency` rejects an unknown device;
    for a known player it raises the flag and succeeds, forcing the phase from
    running to paused while leaving any other phase unchanged; while the flag
    is raised, capture attempts, sighting uploads, game start and game resume
    are all rejected; `clear_emergency` resets the flag and the emergency
    fields without touching the phase; and resume moves paused to running
    exactly when no emergency is active. -/
theorem C7_emergency_protocol (s : GameState) (d r a b tr : String)
    (t : Nat) (rssi : Int) (photo : Option String) (dq cq : Option Int) :
    (dictLookup s.players d = none →
      trigger_emergency s d r t = (s, false, "Player not found")) ∧
    (∀ q, dictLookup s.players d = some q →
      (trigger_emergency s d r t).1.emergency = true ∧
      (trigger_emergency s d r t).2.1 = true ∧
      (s.phase = "running" → (trigger_emergency s d r t).1.phase = "paused") ∧
      (s.phase ≠ "running" → (trigger_emergency s d r t).1.phase = s.phase)) ∧
    (s.emergency = true →
      (process_capture s a b rssi t).2.1 = false ∧
      (api_upload_sighting s a tr photo t).2.1 = false ∧
      (api_start_game s dq cq).2.1 = false ∧
      api_resume_game s t =
        (s, false, "Cannot resume during emergency. Clear emergency first.")) ∧
    ((clear_emergency s).emergency = false ∧
      (clear_emergency s).emergency_by = none ∧
      (clear_emergency s).emergency_reason = "" ∧
      (clear_emergency s).emergency_time = none ∧
      (clear_emergency s).phase = s.phase) ∧
    (s.emergency = false → s.phase = "paused" →
      (api_resume_game s t).1.phase = "running" ∧
        (api_resume_game s t).2.1 = true) := by
  refine ⟨?_, ?_, ?_, ⟨rfl, rfl, rfl, rfl, rfl⟩, ?_⟩
  · intro h
    unfold trigger_emergency
    rw [h]
  · intro q hq
    unfold trigger_emergency
    rw [hq]
    dsimp only
    by_cases hph : s.phase = "running"
    · rw [if_pos hph]
      exact ⟨rfl, rfl, fun _ => rfl, fun hc => absurd hph hc⟩
    · rw [if_neg hph]
      exact ⟨rfl, rfl, fun hc => absurd hc hph, fun _ => rfl⟩
  · intro he
    refine ⟨?_, ?_, ?_, ?_⟩
    · unfold process_capture
      cases hA : dictLookup s.players a with
      | none => rfl
      | some pd =>
        cases hB : dictLookup s.players b with
        | none => rfl
        | some pr =>
          dsimp only
          by_cases e1 : a = b
          · rw [if_pos e1]
          · rw [if_neg e1]
            by_cases e2 : pd.role ≠ "pred"
            · rw [if_pos e2]
            · rw [if_neg e2]
              by_cases e3 : pr.role ≠ "prey"
              · rw [if_pos e3]
              · rw [if_neg e3]
                by_cases e4 : pr.status = "captured" ∧ ¬(get_mode_config s).infection
                · rw [if_pos e4]
                · rw [if_neg e4]
                  by_cases e5 : pr.in_safe_zone ∧ ¬(get_mode_config s).infection
                  · rw [if_pos e5]
                  · rw [if_neg e5]
                    by_cases e6 : s.phase ≠ "running"
                    · rw [if_pos e6]
                    · rw [if_neg e6]
                      rw [if_pos he]
    · unfold api_upload_sighting
      by_cases hadm : a = "ADMIN"
      · rw [if_pos hadm]
      · rw [if_neg hadm]
        dsimp only
        by_cases hph : (get_player s a t).1.phase ≠ "running"
        · rw [if_pos hph]
        · rw [if_neg hph]
          rw [if_pos (show (get_player s a t).1.emergency = true by
            rw [get_player_emergency]; exact he)]
    · unfold api_start_game
      by_cases hph : s.phase ≠ "lobby"
      · rw [if_pos hph]
      · rw [if_neg hph]
        rw [if_pos he]
    · unfold api_resume_game
      rw [if_pos he]
  · intro he hph
    unfold api_resume_game
    rw [if_neg (by simp [he]), if_pos hph]
    dsimp only
    cases hpr : s.paused_remaining with
    | none => exact ⟨rfl, rfl⟩
    | some rr =>
      dsimp only
      by_cases hr : rr ≠ 0
      · rw [if_pos hr]
        exact ⟨rfl, rfl⟩
      · rw [if_neg hr]
        exact ⟨rfl, rfl⟩

/-- Concrete exercise of C7: an unknown device is rejected, a real trigger
    pauses the running game, an active emergency blocks capture and resume,
    clearing drops the flag, and an emergency-free paused game resumes. -/
theorem C7_emergency_protocol_witness :
    trigger_emergency witnessRunState "XXXX" "help" 3 =
      (witnessRunState, false, "Player not found") ∧
    (trigger_emergency witnessRunState "P1P1" "help" 3).1.emergency = true ∧
    (trigger_emergency witnessRunState "P1P1" "help" 3).1.phase = "paused" ∧
    (process_capture witnessEmergencyState "P1P1" "P2P2" (-50) 100).2.1 = false ∧
    api_resume_game witnessEmergencyState 100 =
      (witnessEmergencyState, false,
        "Cannot resume during emergency. Clear emergency first.") ∧
    (clear_emergency witnessEmergencyState).emergency = false ∧
    (api_resume_game witnessPausedState 100).1.phase = "running" := by
  have H1 := C7_emergency_protocol witnessRunState "XXXX" "help" "A" "B" "T" 3 0 none none none
  have H2 := C7_emergency_protocol witnessRunState "P1P1" "help" "A" "B" "T" 3 0 none none none
  have H3 := C7_emergency_protocol witnessEmergencyState "P1P1" "r" "P1P1" "P2P2" "T" 100 (-50) none none none
  have H4 := C7_emergency_protocol witnessPausedState "P1P1" "r" "A" "B" "T" 100 0 none none none
  refine ⟨H1.1 (by decide), (H2.2.1 witnessPred (by decide)).1,
    (H2.2.1 witnessPred (by decide)).2.2.1 rfl, (H3.2.2.1 rfl).1,
    (H3.2.2.1 rfl).2.2.2, H3.2.2.2.1.1, (H4.2.2.2.2 rfl rfl).1⟩

/-- C9: after `api_reset_game` the phase is lobby and the mode the default
    classic; the cooldown and bounty maps are emptied; the key set of the
    player dict is unchanged (no entry removed); and each player record has
    its per-game counters, role, team, ready flag, safe-zone state and
    captured-by linkage zeroed while the identity and profile fields are
    preserved. -/
theorem C9_reset_zeroes_and_preserves (s : GameState) (d : String) (p : Player)
    (hp : dictLookup s.players d = some p) :
    (api_reset_game s).phase = "lobby" ∧
    (api_reset_game s).mode = "classic" ∧
    (api_reset_game s).capture_cooldowns = [] ∧
    (api_reset_game s).sighting_cooldowns = [] ∧
    (api_reset_game s).bounties = [] ∧
    (api_reset_game s).players.map Prod.fst = s.players.map Prod.fst ∧
    (∃ q, dictLookup (api_reset_game s).players d = some q ∧
      q.captures = 0 ∧ q.escapes = 0 ∧ q.times_captured = 0 ∧ q.sightings = 0 ∧
      q.points = 0 ∧ q.infections = 0 ∧ q.role = "unassigned" ∧
      q.original_role = "unassigned" ∧ q.team = none ∧ q.ready = false ∧
      q.in_safe_zone = false ∧ q.safe_zone_beacon = none ∧
      q.captured_by = none ∧ q.captured_by_device = none ∧
      q.device_id = p.device_id ∧ q.nickname = p.nickname ∧
      q.profile_pic = p.profile_pic ∧
      q.consent_physical_tag = p.consent_physical_tag ∧
      q.consent_photo_visible = p.consent_photo_visible ∧
      q.consent_location_share = p.consent_location_share ∧
      q.phone_number = p.phone_number) := by
  have hpl : (api_reset_game s).players =
      (s.players.map (fun kp : String × Player => (kp.1, resetPlayer kp.2))).map
        (fun kp : String × Player =>
          (kp.1, mapNotif (Notif.mk "Game reset to lobby" "info") kp.2)) := rfl
  refine ⟨rfl, rfl, rfl, rfl, rfl, ?_, ?_⟩
  · rw [hpl, keysOf_map, keysOf_map]
  · refine ⟨mapNotif (Notif.mk "Game reset to lobby" "info") (resetPlayer p), ?_,
      rfl, rfl, rfl, rfl, rfl, rfl, rfl, rfl, rfl, rfl, rfl, rfl, rfl, rfl,
      rfl, rfl, rfl, rfl, rfl, rfl, rfl⟩
    rw [hpl, dictLookup_map, dictLookup_map, hp]
    rfl

/-- Concrete exercise of C9 on the running two-player game: the reset returns
    to a classic lobby, empties the bounty map, keeps the predator entry and
    zeroes its capture counter while preserving its device id. -/
theorem C9_reset_zeroes_and_preserves_witness :
    (api_reset_game witnessRunState).phase = "lobby" ∧
    (api_reset_game witnessRunState).mode = "classic" ∧
    (api_reset_game witnessRunState).bounties = [] ∧
    (api_reset_game witnessRunState).players.map Prod.fst =
      witnessRunState.players.map Prod.fst ∧
    (∃ q, dictLookup (api_reset_game witnessRunState).players "P1P1" = some q ∧
      q.captures = 0 ∧ q.role = "unassigned" ∧
      q.device_id = witnessPred.device_id) := by
  obtain ⟨h1, h2, h3, h4, h5, h6, q, hq, hcap, hesc, htc, hsi, hpt, hinf,
      hrole, horo, hteam, hready, hsz, hszb, hcb, hcbd, hdev, hnick, hpic,
      hc1, hc2, hc3, hphone⟩ :=
    C9_reset_zeroes_and_preserves witnessRunState "P1P1" witnessPred (by decide)
  exact ⟨h1, h2, h5, h6, q, hq, hcap, hrole, hdev⟩

/-- C10: `notify_player` appends to the pending queue, dropping the oldest
    entry once the queue would exceed 20 (so a queue within the cap stays
    within it); and a tracker poll with no RSSI payloads returns exactly the
    last five queued pending notifications while resetting the player's
    queue to empty, discarding everything older undelivered. -/
theorem C10_notification_queue_and_ping (s : GameState) (d m ty : String)
    (t : Nat) (p : Player) :
    (dictLookup s.players d = some p →
      ∃ q, dictLookup (notify_player s d m ty).players d = some q ∧
        (p.notifications.length < 20 →
          q.notifications = p.notifications ++ [Notif.mk m ty]) ∧
        (p.notifications.length ≥ 20 →
          q.notifications = (p.notifications ++ [Notif.mk m ty]).tail) ∧
        (p.notifications.length ≤ 20 → q.notifications.length ≤ 20)) ∧
    (pyUpper (pyStrip d) = d → d ≠ "" → dictLookup s.players d = some p →
      p.status ≠ "offline" →
      ∃ s2 resp, api_tracker_ping s d none none t = (s2, some resp) ∧
        resp.notifications = lastN p.notifications 5 ∧
        dictLookup s2.players d =
          some { p with online := true, last_ping := t,
                        notifications := ([] : List Notif) }) := by
  constructor
  · intro hp
    refine ⟨mapNotif (Notif.mk m ty) p,
      lookup_notify_player_self _ _ _ _ _ hp, ?_, ?_, ?_⟩
    · intro hlt
      show pushNotif p.notifications (Notif.mk m ty) = _
      unfold pushNotif
      dsimp only
      rw [if_neg (by simp only [List.length_append, List.length_cons, List.length_nil]; omega)]
    · intro hge
      show pushNotif p.notifications (Notif.mk m ty) = _
      unfold pushNotif
      dsimp only
      rw [if_pos (by simp only [List.length_append, List.length_cons, List.length_nil]; omega)]
    · intro hle
      show (pushNotif p.notifications (Notif.mk m ty)).length ≤ 20
      unfold pushNotif
      dsimp only
      split
      · simp only [List.length_tail, List.length_append, List.length_cons, List.length_nil]
        omega
      · rename_i hgt
        simp only [List.length_append, List.length_cons, List.length_nil] at hgt ⊢
        omega
  · intro hfix hne hp hst
    unfold api_tracker_ping
    dsimp only
    rw [hfix, if_neg hne]
    have hgp : get_player s d t = (s, some p) := by
      unfold get_player
      rw [hp]
    rw [hgp]
    dsimp only
    rw [hp]
    dsimp only
    rw [if_neg hst]
    rw [show dictLookup (dictInsert s.players d { p with online := true, last_ping := t }) d = some { p with online := true, last_ping := t } from dictLookup_dictInsert_self ..]
    dsimp only
    refine ⟨_, _, rfl, rfl, ?_⟩
    exact dictLookup_dictInsert_self ..

/-- Concrete exercise of C10: appending to an eight-deep queue keeps all
    entries plus the new one, and a payload-free tracker poll returns the
    last five of the eight pending notifications and leaves the queue empty. -/
theorem C10_notification_queue_and_ping_witness :
    (∃ q, dictLookup (notify_player witnessNotifState "P1P1" "hello" "info").players "P1P1" = some q ∧
      q.notifications = witnessNotifPlayer.notifications ++ [Notif.mk "hello" "info"]) ∧
    (∃ s2 resp, api_tracker_ping witnessNotifState "P1P1" none none 7 = (s2, some resp) ∧
      resp.notifications = lastN witnessNotifPlayer.notifications 5 ∧
      dictLookup s2.players "P1P1" =
        some { witnessNotifPlayer with online := true, last_ping := 7,
                                       notifications := ([] : List Notif) }) := by
  have H := C10_notification_queue_and_ping witnessNotifState "P1P1" "hello" "info" 7 witnessNotifPlayer
  obtain ⟨q, hq, hlt, _, _⟩ := H.1 (by decide)
  obtain ⟨s2, resp, he, hn, hq2⟩ := H.2 (by decide) (by decide) (by decide) (by decide)
  exact ⟨⟨q, hq, hlt (by decide)⟩, ⟨s2, resp, he, hn, hq2⟩⟩


end IRLHunts
